import Mathlib

/-!
# Seat reservation engine of `Project.cpp`

A shallow embedding of the reservation core of `src/Project.cpp`
(`User`, `Student`, `Faculty`, `Vehicle`, `Booking`, `Transporter`,
`TransportSystem`) together with theorems about it.

Modelling conventions.

* C++ objects that are reached through pointers (`User*`, `Vehicle*`,
  `Transporter*`) live in three object stores; a pointer is an index into
  the store of its type.  Dereferencing an index that designates no object
  (a null or dangling pointer) is undefined behaviour.
* The fixed arrays `users[100]`, `bookings[200]`, `transporters[2]`,
  `vehicles[10]` together with their counters are lists: the list is the
  initialised part of the array, its length is the counter.
* `bool seatStatus[52]` and `bool facultySeatOnly[52]` are vectors of length
  52.  A subscript outside `[0, 52)` is undefined behaviour.
* `int` values are integers; the only arithmetic on them is `bookingCount + 1`
  with `bookingCount < 200`, so no wrap-around can occur.
* A function that can throw returns a `Result`; a function that also mutates
  returns the state reached together with the `Result`.  For `undefined` the
  state is the one in which the faulting access is attempted.
* `bookings[bookingCount++] = new Booking("BK" + to_string(bookingCount + 1), ...)`
  is read with the C++17 rule that the right operand of an assignment is
  evaluated before the left one.
-/

namespace Transport

/-! ## Exceptions and results -/

/-- The five concrete exception classes derived from `TransportException`. -/
inductive TransportException where
  | UserNotFoundException (id : String)
  | VehicleNotFoundException (id : String)
  | SeatUnavailableException (seat : Int)
  | RoleMismatchException
  | PaymentIncompleteException
  deriving DecidableEq, Repr

/-- The message built by each exception constructor, returned by `what()`. -/
def TransportException.what : TransportException → String
  | .UserNotFoundException id => "User not found: " ++ id
  | .VehicleNotFoundException id => "Vehicle not found: " ++ id
  | .SeatUnavailableException seat => "Seat already booked or invalid: " ++ toString seat
  | .RoleMismatchException => "Role-based seat violation."
  | .PaymentIncompleteException => "Payment not completed."

/-- Outcome of a call: normal return, a thrown exception, or undefined
behaviour (array subscript out of range, invalid pointer dereference). -/
inductive Result (α : Type) where
  | ok (a : α)
  | threw (e : TransportException)
  | undefined
  deriving DecidableEq, Repr

/-! ## Users -/

/-- The dynamic type of a `User` object: the class is abstract and has the two
concrete subclasses `Student` and `Faculty`. -/
inductive UserKind where
  | Student
  | Faculty
  deriving DecidableEq, Repr

/-- A `User` object with its dynamic type. -/
structure User where
  kind : UserKind
  userId : String
  fullName : String
  paymentDone : Bool
  deriving DecidableEq, Repr

/-- Constructor `Student(id, name)`; `User(id, name)` sets `paymentDone(false)`. -/
def Student (id name : String) : User := ⟨.Student, id, name, false⟩

/-- Constructor `Faculty(id, name)`; `User(id, name)` sets `paymentDone(false)`. -/
def Faculty (id name : String) : User := ⟨.Faculty, id, name, false⟩

namespace User

/-- Virtual `isFacultyMember()`: `false` in `Student`, `true` in `Faculty`. -/
def isFacultyMember (u : User) : Bool :=
  match u.kind with
  | .Student => false
  | .Faculty => true

/-- Virtual `calculateFare(isAC)`: `isAC ? 7000 : 5000` in `Student`,
`isAC ? 5000 : 3000` in `Faculty`. -/
def calculateFare (u : User) (isAC : Bool) : Int :=
  match u.kind with
  | .Student => if isAC then 7000 else 5000
  | .Faculty => if isAC then 5000 else 3000

def getId (u : User) : String := u.userId

def getName (u : User) : String := u.fullName

def getPaymentStatus (u : User) : Bool := u.paymentDone

/-- Method `makePayment()`: `paymentDone = true`. -/
def makePayment (u : User) : User := { u with paymentDone := true }

end User

/-! ## Vehicles -/

/-- The slot of a 52-element array designated by an `int` subscript, or `none`
when the subscript is outside `[0, 52)`. -/
def seatSlot (s : Int) : Option (Fin 52) :=
  if h : 0 ≤ s ∧ s < 52 then some ⟨s.toNat, by omega⟩ else none

/-- A `Vehicle` object.  `driverAssigned` and `assignedRoute` are pointers
(`none` is `nullptr`); the objects they point to play no part in booking. -/
structure Vehicle where
  vehicleId : String
  isAC : Bool
  totalCapacity : Int
  seatStatus : Mathlib.Vector Bool 52
  facultySeatOnly : Mathlib.Vector Bool 52
  driverAssigned : Option Nat
  assignedRoute : Option Nat
  deriving DecidableEq

namespace Vehicle

/-- Constructor `Vehicle(id, ac, cap)`: both arrays are filled with `false`, the
two pointers are null.  `cap` is stored as given. -/
def new (id : String) (ac : Bool) (cap : Int) : Vehicle :=
  { vehicleId := id, isAC := ac, totalCapacity := cap,
    seatStatus := Mathlib.Vector.replicate 52 false,
    facultySeatOnly := Mathlib.Vector.replicate 52 false,
    driverAssigned := none, assignedRoute := none }

def getId (v : Vehicle) : String := v.vehicleId

def getACStatus (v : Vehicle) : Bool := v.isAC

/-- Method `isSeatBooked(s)`: `return seatStatus[s];`. -/
def isSeatBooked (v : Vehicle) (s : Int) : Result Bool :=
  match seatSlot s with
  | none => .undefined
  | some i => .ok (v.seatStatus.get i)

/-- Method `isSeatForFaculty(s)`: `return facultySeatOnly[s];`. -/
def isSeatForFaculty (v : Vehicle) (s : Int) : Result Bool :=
  match seatSlot s with
  | none => .undefined
  | some i => .ok (v.facultySeatOnly.get i)

/-- Method `markSeatForFaculty(s)`: `facultySeatOnly[s] = true;`. -/
def markSeatForFaculty (v : Vehicle) (s : Int) : Vehicle × Result Unit :=
  match seatSlot s with
  | none => (v, .undefined)
  | some i => ({ v with facultySeatOnly := v.facultySeatOnly.set i true }, .ok ())

/-- Method `Vehicle::bookSeat(s, u)`.  The first test is `s >= totalCapacity`;
every later line subscripts one of the two arrays with `s`. -/
def bookSeat (v : Vehicle) (s : Int) (u : User) : Vehicle × Result Unit :=
  if v.totalCapacity ≤ s then (v, .threw (.SeatUnavailableException s))
  else
    match seatSlot s with
    | none => (v, .undefined)
    | some i =>
      if v.seatStatus.get i then (v, .threw (.SeatUnavailableException s))
      else if v.facultySeatOnly.get i && !u.isFacultyMember then
        (v, .threw .RoleMismatchException)
      else if !v.facultySeatOnly.get i && u.isFacultyMember then
        (v, .threw .RoleMismatchException)
      else ({ v with seatStatus := v.seatStatus.set i true }, .ok ())

end Vehicle

/-! ## Bookings, transporters and the system -/

/-- A `Booking` object: the code, the two pointers, the seat and the fare
computed by the constructor. -/
structure Booking where
  bookingCode : String
  passenger : Nat
  rideVehicle : Nat
  bookedSeat : Int
  totalFare : Int
  deriving DecidableEq, Repr

/-- Constructor `Booking(code, u, v, seat)`; `uo` and `vo` are the objects the
pointers `u` and `v` designate.  The body sets
`totalFare = passenger->calculateFare(rideVehicle->getACStatus())`. -/
def Booking.new (code : String) (u : Nat) (uo : User) (v : Nat) (vo : Vehicle)
    (seat : Int) : Booking :=
  { bookingCode := code, passenger := u, rideVehicle := v, bookedSeat := seat,
    totalFare := uo.calculateFare vo.getACStatus }

/-- A `Transporter` object; the three lists hold pointers. -/
structure Transporter where
  transporterName : String
  drivers : List Nat
  vehicles : List Nat
  routes : List Nat
  deriving DecidableEq, Repr

namespace Transporter

def new (name : String) : Transporter := ⟨name, [], [], []⟩

def getName (t : Transporter) : String := t.transporterName

/-- Method `addDriver(d)`: `if (driverCount < 10) drivers[driverCount++] = d;`. -/
def addDriver (t : Transporter) (d : Nat) : Transporter :=
  if t.drivers.length < 10 then { t with drivers := t.drivers ++ [d] } else t

/-- Method `addRoute(r)`: `if (routeCount < 10) routes[routeCount++] = r;`. -/
def addRoute (t : Transporter) (r : Nat) : Transporter :=
  if t.routes.length < 10 then { t with routes := t.routes ++ [r] } else t

/-- Method `addVehicle(v)`: `if (vehicleCount < 10) vehicles[vehicleCount++] = v;`. -/
def addVehicle (t : Transporter) (v : Nat) : Transporter :=
  if t.vehicles.length < 10 then { t with vehicles := t.vehicles ++ [v] } else t

/-- The loop of `getVehicleById` over the remaining entries of `vehicles`;
`objs` is the store of `Vehicle` objects. -/
def scanVehicles (objs : List Vehicle) (id : String) : List Nat → Result (Option Nat)
  | [] => .ok none
  | p :: ps =>
    match objs[p]? with
    | none => .undefined
    | some v => if v.getId = id then .ok (some p) else scanVehicles objs id ps

/-- Method `Transporter::getVehicleById(id)`; `none` is `nullptr`. -/
def getVehicleById (t : Transporter) (objs : List Vehicle) (id : String) :
    Result (Option Nat) :=
  scanVehicles objs id t.vehicles

end Transporter

/-- The `TransportSystem` object together with the objects its pointers can
reach: `userObjs`, `vehicleObjs` and `transporterObjs` are the object stores,
`users`, `bookings` and `transporters` the member arrays. -/
structure TransportSystem where
  userObjs : List User
  vehicleObjs : List Vehicle
  transporterObjs : List Transporter
  users : List Nat
  bookings : List Booking
  transporters : List Nat
  deriving DecidableEq

namespace TransportSystem

def userCount (sys : TransportSystem) : Nat := sys.users.length

def bookingCount (sys : TransportSystem) : Nat := sys.bookings.length

def transporterCount (sys : TransportSystem) : Nat := sys.transporters.length

/-- Method `registerUser(u)`: `if (userCount < 100) users[userCount++] = u;`. -/
def registerUser (sys : TransportSystem) (u : Nat) : TransportSystem :=
  if sys.userCount < 100 then { sys with users := sys.users ++ [u] } else sys

/-- The loop of `getUserById` over the remaining entries of `users`. -/
def scanUsers (objs : List User) (id : String) : List Nat → Result Nat
  | [] => .threw (.UserNotFoundException id)
  | p :: ps =>
    match objs[p]? with
    | none => .undefined
    | some u => if u.getId = id then .ok p else scanUsers objs id ps

/-- Method `TransportSystem::getUserById(id)`. -/
def getUserById (sys : TransportSystem) (id : String) : Result Nat :=
  scanUsers sys.userObjs id sys.users

/-- Method `addTransporter(t)`:
`if (transporterCount < 2) transporters[transporterCount++] = t;`. -/
def addTransporter (sys : TransportSystem) (t : Nat) : TransportSystem :=
  if sys.transporterCount < 2 then { sys with transporters := sys.transporters ++ [t] }
  else sys

/-- The state after the object at `p` in the vehicle store has become `v`. -/
def setVehicle (sys : TransportSystem) (p : Nat) (v : Vehicle) : TransportSystem :=
  { sys with vehicleObjs := sys.vehicleObjs.set p v }

/-- The statement
`bookings[bookingCount++] = new Booking("BK" + to_string(bookingCount + 1), u, v, seat);`
followed by `return true;`.  The `Booking` is built first, from the counter
before the increment; the store into `bookings` is in range only below 200. -/
def recordBooking (sys : TransportSystem) (u : Nat) (uo : User) (v : Nat) (vo : Vehicle)
    (seat : Int) : TransportSystem × Result Bool :=
  let b := Booking.new ("BK" ++ toString (sys.bookingCount + 1)) u uo v vo seat
  if sys.bookingCount < 200 then ({ sys with bookings := sys.bookings ++ [b] }, .ok true)
  else (sys, .undefined)

/-- The body executed when `getVehicleById` returned the non-null pointer `v`:
`v->bookSeat(seat, u);` and then the recording statement. -/
def bookFound (sys : TransportSystem) (u : Nat) (uo : User) (v : Nat) (seat : Int) :
    TransportSystem × Result Bool :=
  match sys.vehicleObjs[v]? with
  | none => (sys, .undefined)
  | some vo =>
    let r := vo.bookSeat seat uo
    let sys1 := sys.setVehicle v r.1
    match r.2 with
    | .undefined => (sys1, .undefined)
    | .threw e => (sys1, .threw e)
    | .ok _ => sys1.recordBooking u uo v r.1 seat

/-- The `for` loop of `bookSeat` over the remaining entries of `transporters`,
ending in `throw VehicleNotFoundException(vehicleId)`. -/
def bookLoop (sys : TransportSystem) (u : Nat) (uo : User) (vehicleId : String)
    (seat : Int) : List Nat → TransportSystem × Result Bool
  | [] => (sys, .threw (.VehicleNotFoundException vehicleId))
  | t :: ts =>
    match sys.transporterObjs[t]? with
    | none => (sys, .undefined)
    | some tr =>
      match tr.getVehicleById sys.vehicleObjs vehicleId with
      | .undefined => (sys, .undefined)
      | .threw e => (sys, .threw e)
      | .ok none => bookLoop sys u uo vehicleId seat ts
      | .ok (some v) => sys.bookFound u uo v seat

/-- Method `TransportSystem::bookSeat(userId, vehicleId, seat)`. -/
def bookSeat (sys : TransportSystem) (userId vehicleId : String) (seat : Int) :
    TransportSystem × Result Bool :=
  match sys.getUserById userId with
  | .undefined => (sys, .undefined)
  | .threw e => (sys, .threw e)
  | .ok u =>
    match sys.userObjs[u]? with
    | none => (sys, .undefined)
    | some uo =>
      if !uo.getPaymentStatus then (sys, .threw .PaymentIncompleteException)
      else bookLoop sys u uo vehicleId seat sys.transporters

/-- The first vehicle with the given id in provider order, then insertion
order: the pointer the loop of `bookSeat` passes to `Vehicle::bookSeat`. -/
def findVehicle (sys : TransportSystem) (vehicleId : String) : List Nat → Result (Option Nat)
  | [] => .ok none
  | t :: ts =>
    match sys.transporterObjs[t]? with
    | none => .undefined
    | some tr =>
      match tr.getVehicleById sys.vehicleObjs vehicleId with
      | .undefined => .undefined
      | .threw e => .threw e
      | .ok none => findVehicle sys vehicleId ts
      | .ok (some v) => .ok (some v)

/-- Every pointer in `users` designates a `User` object. -/
def usersValid (sys : TransportSystem) : Bool :=
  sys.users.all fun p => decide (p < sys.userObjs.length)

/-- Every pointer in `transporters` designates a `Transporter` object, and
every pointer in the `vehicles` of such an object designates a `Vehicle`. -/
def transportersValid (sys : TransportSystem) : Bool :=
  sys.transporters.all fun t =>
    match sys.transporterObjs[t]? with
    | none => false
    | some tr => tr.vehicles.all fun p => decide (p < sys.vehicleObjs.length)

end TransportSystem

/-! ## The state built by `main` -/

/-- The vehicle `vh1` of `main` when it is handed to `addVehicle`: capacity 32,
AC, driver and route assigned, seats 0 to 3 marked for faculty. -/
def mainVehicle : Vehicle :=
  let vh1 := Vehicle.new "VH001" true 32
  let vh1 := { vh1 with driverAssigned := some 0, assignedRoute := some 0 }
  let vh1 := (vh1.markSeatForFaculty 0).1
  let vh1 := (vh1.markSeatForFaculty 1).1
  let vh1 := (vh1.markSeatForFaculty 2).1
  (vh1.markSeatForFaculty 3).1

/-- The state `main` has built just before its first `bookSeat` call, except
that `payS` and `payF` say whether `makePayment` has been called on the student
and on the faculty member. -/
def mainSystem (payS payF : Bool) : TransportSystem :=
  let bilal := Student "STU301" "Bilal Qureshi"
  let hina := Faculty "FAC404" "Prof. Hina Siddiqui"
  let jadoon := ((Transporter.new "Jadoon Transport").addDriver 0).addRoute 0
  let sys : TransportSystem :=
    { userObjs := [if payS then bilal.makePayment else bilal,
                   if payF then hina.makePayment else hina],
      vehicleObjs := [mainVehicle],
      transporterObjs := [jadoon.addVehicle 0],
      users := [], bookings := [], transporters := [] }
  ((sys.registerUser 0).registerUser 1).addTransporter 0

/-- The state after the first booking of `main`,
`bookSeat("STU301", "VH001", 6)`, both riders having paid. -/
def afterFirstBooking : TransportSystem :=
  ((mainSystem true true).bookSeat "STU301" "VH001" 6).1

/-- The state after the second booking of `main`,
`bookSeat("FAC404", "VH001", 1)`. -/
def afterSecondBooking : TransportSystem :=
  (afterFirstBooking.bookSeat "FAC404" "VH001" 1).1

/-- The state after the two bookings of `main` in which a third rider,
a student who has not paid, has been created and registered. -/
def withUnpaidRider : TransportSystem :=
  TransportSystem.registerUser
    { afterSecondBooking with
      userObjs := afterSecondBooking.userObjs ++ [Student "STU302" "Unpaid Rider"] } 2

/-! ## Sequences of calls and counting -/

/-- The arguments of one `TransportSystem::bookSeat` call. -/
structure Call where
  userId : String
  vehicleId : String
  seat : Int
  deriving DecidableEq, Repr

/-- The state reached by making the calls one after the other, a thrown
exception being caught by the caller as in `main`; `none` as soon as one call
has undefined behaviour. -/
def runCalls : TransportSystem → List Call → Option TransportSystem
  | sys, [] => some sys
  | sys, c :: cs =>
    match (sys.bookSeat c.userId c.vehicleId c.seat).2 with
    | .undefined => none
    | .threw _ => runCalls (sys.bookSeat c.userId c.vehicleId c.seat).1 cs
    | .ok _ => runCalls (sys.bookSeat c.userId c.vehicleId c.seat).1 cs

/-- Those calls of the sequence that return normally, in order. -/
def succeeded : TransportSystem → List Call → List Call
  | _, [] => []
  | sys, c :: cs =>
    match (sys.bookSeat c.userId c.vehicleId c.seat).2 with
    | .ok _ => c :: succeeded (sys.bookSeat c.userId c.vehicleId c.seat).1 cs
    | _ => succeeded (sys.bookSeat c.userId c.vehicleId c.seat).1 cs

/-- Number of slots of `seatStatus` that are set. -/
def Vehicle.bookedSeats (v : Vehicle) : Nat := v.seatStatus.toList.count true

/-- Number of set `seatStatus` slots over all `Vehicle` objects. -/
def TransportSystem.totalBooked (sys : TransportSystem) : Nat :=
  (sys.vehicleObjs.map Vehicle.bookedSeats).sum

/-- The vehicle pointers in the order the loop of `bookSeat` meets them:
provider by provider, and within a provider in insertion order. -/
def TransportSystem.vehiclePtrs (sys : TransportSystem) : List Nat :=
  sys.transporters.flatMap fun t =>
    match sys.transporterObjs[t]? with
    | none => []
    | some tr => tr.vehicles

/-- The value of a list of decimal digit characters read after `acc`. -/
def readDecimal (cs : List Char) (acc : Nat) : Nat :=
  cs.foldl (fun a c => a * 10 + (c.toNat - 48)) acc

/-- The sequence number a booking code carries: the decimal number after the
two letters of the code. -/
def Booking.sequenceNumber (b : Booking) : Nat :=
  readDecimal (b.bookingCode.data.drop 2) 0

/-- The two calls of `main` with a failing call between them: the faculty
member asking for seat 6, which the student has just booked. -/
def mainCalls : List Call :=
  [⟨"STU301", "VH001", 6⟩, ⟨"FAC404", "VH001", 6⟩, ⟨"FAC404", "VH001", 1⟩]

/-! ## A state with a full ledger -/

/-- One paid student and one provider with four vehicles of 52 seats, none of
them marked for faculty. -/
def fleetSystem : TransportSystem :=
  { userObjs := [(Student "STU301" "Bilal Qureshi").makePayment],
    vehicleObjs := [Vehicle.new "VH001" false 52, Vehicle.new "VH002" false 52,
      Vehicle.new "VH003" false 52, Vehicle.new "VH004" false 52],
    transporterObjs :=
      [((((Transporter.new "Jadoon Transport").addVehicle 0).addVehicle 1).addVehicle 2).addVehicle 3],
    users := [0], bookings := [], transporters := [0] }

/-- Two hundred calls by the student: seats 0 to 51 of the first three
vehicles, then seats 0 to 43 of the fourth. -/
def fleetCalls : List Call :=
  (List.range 200).map fun k =>
    ⟨"STU301", ["VH001", "VH002", "VH003", "VH004"].getD (k / 52) "", ((k % 52 : Nat) : Int)⟩

/-- The state after the two hundred calls. -/
def fullLedgerSystem : TransportSystem := (runCalls fleetSystem fleetCalls).getD fleetSystem

/-! ## Lemmas on `Vehicle::bookSeat` -/

theorem seatSlot_eq_some {s : Int} {i : Fin 52} (h : seatSlot s = some i) :
    0 ≤ s ∧ s < 52 ∧ (i : Nat) = s.toNat := by
  unfold seatSlot at h
  split at h
  · rename_i hs
    simp only [Option.some.injEq] at h
    subst h
    exact ⟨hs.1, hs.2, rfl⟩
  · simp at h

theorem seatSlot_eq_none {s : Int} (h : seatSlot s = none) : s < 0 ∨ 52 ≤ s := by
  unfold seatSlot at h
  split at h
  · simp at h
  · omega

theorem seatSlot_of_range {s : Int} (h0 : 0 ≤ s) (h1 : s < 52) :
    ∃ i, seatSlot s = some i := by
  unfold seatSlot
  rw [dif_pos ⟨h0, h1⟩]
  exact ⟨_, rfl⟩

namespace Vehicle

/-- Whatever the outcome, `bookSeat` changes no field other than `seatStatus`. -/
theorem bookSeat_fields (v : Vehicle) (s : Int) (u : User) :
    (v.bookSeat s u).1.vehicleId = v.vehicleId ∧ (v.bookSeat s u).1.isAC = v.isAC ∧
    (v.bookSeat s u).1.totalCapacity = v.totalCapacity ∧
    (v.bookSeat s u).1.facultySeatOnly = v.facultySeatOnly := by
  unfold bookSeat
  split
  · simp
  · split
    · simp
    · split_ifs <;> simp

/-- An outcome other than a normal return leaves the vehicle as it was. -/
theorem bookSeat_not_ok (v : Vehicle) (s : Int) (u : User)
    (h : (v.bookSeat s u).2 ≠ .ok ()) : (v.bookSeat s u).1 = v := by
  unfold bookSeat at h ⊢
  split
  · rfl
  · split
    · rfl
    · split_ifs <;> simp_all

/-- What a normal return of `bookSeat` tells about the vehicle before and after. -/
theorem bookSeat_ok (v : Vehicle) (s : Int) (u : User)
    (h : (v.bookSeat s u).2 = .ok ()) :
    ∃ i, seatSlot s = some i ∧ s < v.totalCapacity ∧ v.seatStatus.get i = false ∧
      v.facultySeatOnly.get i = u.isFacultyMember ∧
      (v.bookSeat s u).1 = { v with seatStatus := v.seatStatus.set i true } := by
  unfold bookSeat at h ⊢
  by_cases hcap : v.totalCapacity ≤ s
  · simp [hcap] at h
  · simp only [if_neg hcap] at h ⊢
    cases hi : seatSlot s with
    | none => simp [hi] at h
    | some i =>
      simp only [hi] at h ⊢
      refine ⟨i, rfl, by omega, ?_⟩
      cases hb : v.seatStatus.get i <;> cases hf : v.facultySeatOnly.get i <;>
        cases hu : u.isFacultyMember <;> simp_all

/-- A seat whose flag is set cannot be booked: the call throws
`SeatUnavailableException` and the vehicle is unchanged. -/
theorem bookSeat_booked (v : Vehicle) (s : Int) (u : User) (i : Fin 52)
    (hi : seatSlot s = some i) (hc : s < v.totalCapacity) (hb : v.seatStatus.get i = true) :
    v.bookSeat s u = (v, .threw (.SeatUnavailableException s)) := by
  unfold bookSeat
  rw [if_neg (by omega)]
  simp [hi, hb]

end Vehicle

/-! ## Lemmas on the two lookups -/

theorem getElem?_set_vehicle (objs : List Vehicle) (p q : Nat) (v v1 : Vehicle)
    (hp : objs[p]? = some v) (hid : v1.vehicleId = v.vehicleId) :
    ((objs.set p v1)[q]?).map Vehicle.getId = (objs[q]?).map Vehicle.getId := by
  by_cases hpq : p = q
  · subst hpq
    have hlt : p < objs.length := (List.getElem?_eq_some_iff.mp hp).1
    simp [List.getElem?_set_self, hlt, hp, Vehicle.getId, hid]
  · rw [List.getElem?_set_ne hpq]

namespace Transporter

/-- The scan reads nothing but the ids of the vehicles. -/
theorem scanVehicles_congr (objs objs1 : List Vehicle) (id : String)
    (h : ∀ q : Nat, (objs1[q]?).map Vehicle.getId = (objs[q]?).map Vehicle.getId)
    (ps : List Nat) : scanVehicles objs1 id ps = scanVehicles objs id ps := by
  induction ps with
  | nil => rfl
  | cons p ps ih =>
    have hp := h p
    unfold scanVehicles
    cases h1 : objs1[p]? <;> cases h0 : objs[p]? <;> simp [h1, h0] at hp ⊢
    rw [hp, ih]

theorem scanVehicles_ne_threw (objs : List Vehicle) (id : String) (ps : List Nat)
    (e : TransportException) : scanVehicles objs id ps ≠ .threw e := by
  induction ps with
  | nil => simp [scanVehicles]
  | cons p ps ih =>
    unfold scanVehicles
    cases h0 : objs[p]? with
    | none => simp
    | some v =>
      by_cases hid : v.getId = id
      · simp [hid]
      · simpa [hid] using ih

theorem scanVehicles_some (objs : List Vehicle) (id : String) (ps : List Nat) (p : Nat)
    (h : scanVehicles objs id ps = .ok (some p)) :
    p ∈ ps ∧ ∃ v, objs[p]? = some v ∧ v.vehicleId = id := by
  induction ps with
  | nil => simp [scanVehicles] at h
  | cons q ps ih =>
    unfold scanVehicles at h
    cases h0 : objs[q]? with
    | none => simp [h0] at h
    | some v =>
      by_cases hid : v.getId = id
      · simp only [h0, hid, if_true, Result.ok.injEq, Option.some.injEq] at h
        subst h
        exact ⟨List.mem_cons_self _ _, v, h0, hid⟩
      · simp only [h0, hid, if_false] at h
        exact ⟨List.mem_cons_of_mem _ (ih h).1, (ih h).2⟩

theorem scanVehicles_none (objs : List Vehicle) (id : String) (ps : List Nat)
    (h : scanVehicles objs id ps = .ok none) :
    ∀ p ∈ ps, ∀ v, objs[p]? = some v → v.vehicleId ≠ id := by
  induction ps with
  | nil => simp
  | cons q ps ih =>
    unfold scanVehicles at h
    cases h0 : objs[q]? with
    | none => simp [h0] at h
    | some v =>
      by_cases hid : v.getId = id
      · simp [h0, hid] at h
      · simp only [h0, hid, if_false] at h
        intro p hp w hw
        rcases List.mem_cons.mp hp with rfl | hp
        · rw [h0] at hw
          cases hw
          exact hid
        · exact ih h p hp w hw

theorem scanVehicles_valid (objs : List Vehicle) (id : String) (ps : List Nat)
    (hv : ∀ p ∈ ps, p < objs.length) : scanVehicles objs id ps ≠ .undefined := by
  induction ps with
  | nil => simp [scanVehicles]
  | cons q ps ih =>
    unfold scanVehicles
    have hq : q < objs.length := hv q (List.mem_cons_self _ _)
    rw [List.getElem?_eq_getElem hq]
    by_cases hid : (objs[q]).getId = id
    · simp [hid]
    · simpa [hid] using ih (fun p hp => hv p (List.mem_cons_of_mem _ hp))

end Transporter

namespace TransportSystem

theorem scanUsers_ok (objs : List User) (id : String) (ps : List Nat) (p : Nat)
    (h : scanUsers objs id ps = .ok p) :
    p ∈ ps ∧ ∃ u, objs[p]? = some u ∧ u.userId = id := by
  induction ps with
  | nil => simp [scanUsers] at h
  | cons q ps ih =>
    unfold scanUsers at h
    cases h0 : objs[q]? with
    | none => simp [h0] at h
    | some u =>
      by_cases hid : u.getId = id
      · simp only [h0, hid, if_true, Result.ok.injEq] at h
        subst h
        exact ⟨List.mem_cons_self _ _, u, h0, hid⟩
      · simp only [h0, hid, if_false] at h
        exact ⟨List.mem_cons_of_mem _ (ih h).1, (ih h).2⟩

theorem scanUsers_threw (objs : List User) (id : String) (ps : List Nat)
    (e : TransportException) (h : scanUsers objs id ps = .threw e) :
    e = .UserNotFoundException id ∧ ∀ p ∈ ps, ∀ u, objs[p]? = some u → u.userId ≠ id := by
  induction ps with
  | nil =>
    simp only [scanUsers, Result.threw.injEq] at h
    simp [h]
  | cons q ps ih =>
    unfold scanUsers at h
    cases h0 : objs[q]? with
    | none => simp [h0] at h
    | some u =>
      by_cases hid : u.getId = id
      · simp [h0, hid] at h
      · simp only [h0, hid, if_false] at h
        refine ⟨(ih h).1, ?_⟩
        intro p hp w hw
        rcases List.mem_cons.mp hp with rfl | hp
        · rw [h0] at hw
          cases hw
          exact hid
        · exact (ih h).2 p hp w hw

theorem scanUsers_valid (objs : List User) (id : String) (ps : List Nat)
    (hv : ∀ p ∈ ps, p < objs.length) : scanUsers objs id ps ≠ .undefined := by
  induction ps with
  | nil => simp [scanUsers]
  | cons q ps ih =>
    unfold scanUsers
    have hq : q < objs.length := hv q (List.mem_cons_self _ _)
    rw [List.getElem?_eq_getElem hq]
    by_cases hid : (objs[q]).getId = id
    · simp [hid]
    · simpa [hid] using ih (fun p hp => hv p (List.mem_cons_of_mem _ hp))

theorem usersValid_iff (sys : TransportSystem) :
    sys.usersValid = true ↔ ∀ p ∈ sys.users, p < sys.userObjs.length := by
  simp [usersValid, List.all_eq_true]

end TransportSystem

/-! ## Lemmas on `TransportSystem::bookSeat` -/

theorem set_of_getElem? {α : Type} (l : List α) (p : Nat) (a : α) (h : l[p]? = some a) :
    l.set p a = l := by
  apply List.ext_getElem?
  intro q
  by_cases hpq : p = q
  · subst hpq
    rw [List.getElem?_set_self (List.getElem?_eq_some_iff.mp h).1, h]
  · rw [List.getElem?_set_ne hpq]

namespace TransportSystem

theorem transportersValid_iff (sys : TransportSystem) :
    sys.transportersValid = true ↔
      ∀ t ∈ sys.transporters, ∃ tr, sys.transporterObjs[t]? = some tr ∧
        ∀ p ∈ tr.vehicles, p < sys.vehicleObjs.length := by
  unfold transportersValid
  rw [List.all_eq_true]
  constructor
  · intro h t ht
    have := h t ht
    cases h0 : sys.transporterObjs[t]? with
    | none => simp [h0] at this
    | some tr =>
      simp only [h0, List.all_eq_true, decide_eq_true_eq] at this
      exact ⟨tr, rfl, this⟩
  · intro h t ht
    obtain ⟨tr, h0, h1⟩ := h t ht
    simp only [h0, List.all_eq_true, decide_eq_true_eq]
    exact h1

/-- The vehicle lookup reads the transporters and the ids of the vehicles only. -/
theorem findVehicle_congr (sys sys1 : TransportSystem) (id : String)
    (ht : sys1.transporterObjs = sys.transporterObjs)
    (hv : ∀ q : Nat, (sys1.vehicleObjs[q]?).map Vehicle.getId =
      (sys.vehicleObjs[q]?).map Vehicle.getId)
    (ts : List Nat) : findVehicle sys1 id ts = findVehicle sys id ts := by
  induction ts with
  | nil => rfl
  | cons t ts ih =>
    unfold findVehicle
    rw [ht, ih]
    cases sys.transporterObjs[t]? with
    | none => rfl
    | some tr =>
      simp only [Transporter.getVehicleById]
      rw [Transporter.scanVehicles_congr _ _ id hv]

theorem findVehicle_ne_threw (sys : TransportSystem) (id : String) (ts : List Nat)
    (e : TransportException) : findVehicle sys id ts ≠ .threw e := by
  induction ts with
  | nil => simp [findVehicle]
  | cons t ts ih =>
    unfold findVehicle
    cases sys.transporterObjs[t]? with
    | none => simp
    | some tr =>
      simp only [Transporter.getVehicleById]
      cases h1 : Transporter.scanVehicles sys.vehicleObjs id tr.vehicles with
      | undefined => simp
      | threw e1 => exact absurd h1 (Transporter.scanVehicles_ne_threw _ _ _ _)
      | ok r =>
        cases r with
        | none => simpa using ih
        | some v => simp

theorem findVehicle_some (sys : TransportSystem) (id : String) (ts : List Nat) (p : Nat)
    (h : findVehicle sys id ts = .ok (some p)) :
    ∃ t ∈ ts, ∃ tr, sys.transporterObjs[t]? = some tr ∧ p ∈ tr.vehicles ∧
      ∃ v, sys.vehicleObjs[p]? = some v ∧ v.vehicleId = id := by
  induction ts with
  | nil => simp [findVehicle] at h
  | cons t ts ih =>
    unfold findVehicle at h
    cases h0 : sys.transporterObjs[t]? with
    | none => simp [h0] at h
    | some tr =>
      simp only [h0, Transporter.getVehicleById] at h
      cases h1 : Transporter.scanVehicles sys.vehicleObjs id tr.vehicles with
      | undefined => simp [h1] at h
      | threw e1 => simp [h1] at h
      | ok r =>
        cases r with
        | none =>
          simp only [h1] at h
          obtain ⟨t1, ht1, rest⟩ := ih h
          exact ⟨t1, List.mem_cons_of_mem _ ht1, rest⟩
        | some v =>
          simp only [h1, Result.ok.injEq, Option.some.injEq] at h
          subst h
          have := Transporter.scanVehicles_some _ _ _ _ h1
          exact ⟨t, List.mem_cons_self _ _, tr, h0, this.1, this.2⟩

theorem findVehicle_none (sys : TransportSystem) (id : String) (ts : List Nat)
    (h : findVehicle sys id ts = .ok none) :
    ∀ t ∈ ts, ∀ tr, sys.transporterObjs[t]? = some tr →
      ∀ p ∈ tr.vehicles, ∀ v, sys.vehicleObjs[p]? = some v → v.vehicleId ≠ id := by
  induction ts with
  | nil => simp
  | cons t ts ih =>
    unfold findVehicle at h
    cases h0 : sys.transporterObjs[t]? with
    | none => simp [h0] at h
    | some tr =>
      simp only [h0, Transporter.getVehicleById] at h
      cases h1 : Transporter.scanVehicles sys.vehicleObjs id tr.vehicles with
      | undefined => simp [h1] at h
      | threw e1 => simp [h1] at h
      | ok r =>
        cases r with
        | some v => simp [h1] at h
        | none =>
          simp only [h1] at h
          intro t1 ht1 tr1 htr1
          rcases List.mem_cons.mp ht1 with rfl | ht1
          · rw [h0] at htr1
            cases htr1
            exact Transporter.scanVehicles_none _ _ _ h1
          · exact ih h t1 ht1 tr1 htr1

theorem findVehicle_valid (sys : TransportSystem) (id : String) (ts : List Nat)
    (hv : ∀ t ∈ ts, ∃ tr, sys.transporterObjs[t]? = some tr ∧
        ∀ p ∈ tr.vehicles, p < sys.vehicleObjs.length) :
    findVehicle sys id ts ≠ .undefined := by
  induction ts with
  | nil => simp [findVehicle]
  | cons t ts ih =>
    unfold findVehicle
    obtain ⟨tr, h0, hp⟩ := hv t (List.mem_cons_self _ _)
    simp only [h0, Transporter.getVehicleById]
    cases h1 : Transporter.scanVehicles sys.vehicleObjs id tr.vehicles with
    | undefined => exact absurd h1 (Transporter.scanVehicles_valid _ _ _ hp)
    | threw e1 => simp
    | ok r =>
      cases r with
      | none => simpa using ih (fun t1 ht1 => hv t1 (List.mem_cons_of_mem _ ht1))
      | some v => simp

/-- The loop of `bookSeat` in terms of the vehicle lookup. -/
theorem bookLoop_eq (sys : TransportSystem) (u : Nat) (uo : User) (id : String)
    (seat : Int) (ts : List Nat) :
    bookLoop sys u uo id seat ts =
      match findVehicle sys id ts with
      | .undefined => (sys, .undefined)
      | .threw e => (sys, .threw e)
      | .ok none => (sys, .threw (.VehicleNotFoundException id))
      | .ok (some v) => sys.bookFound u uo v seat := by
  induction ts with
  | nil => rfl
  | cons t ts ih =>
    unfold bookLoop findVehicle
    cases sys.transporterObjs[t]? with
    | none => rfl
    | some tr =>
      simp only
      cases h1 : tr.getVehicleById sys.vehicleObjs id with
      | undefined => rfl
      | threw e1 => rfl
      | ok r =>
        cases r with
        | none => simpa using ih
        | some v => rfl

/-- An exception out of the found-vehicle branch is one of the two thrown by
`Vehicle::bookSeat`, and it leaves the state as it was. -/
theorem bookFound_threw (sys : TransportSystem) (u : Nat) (uo : User) (v : Nat)
    (seat : Int) (e : TransportException) (h : (sys.bookFound u uo v seat).2 = .threw e) :
    (sys.bookFound u uo v seat).1 = sys ∧
      (e = .SeatUnavailableException seat ∨ e = .RoleMismatchException) := by
  unfold bookFound at h ⊢
  cases h0 : sys.vehicleObjs[v]? with
  | none => simp [h0] at h
  | some vo =>
    simp only [h0] at h ⊢
    cases h1 : (vo.bookSeat seat uo).2 with
    | undefined => simp [h1] at h
    | ok x =>
      simp only [h1, recordBooking] at h
      split at h <;> simp at h
    | threw e1 =>
      simp only [h1, Result.threw.injEq] at h ⊢
      subst h
      have hne : (vo.bookSeat seat uo).2 ≠ .ok () := by simp [h1]
      rw [Vehicle.bookSeat_not_ok vo seat uo hne]
      refine ⟨?_, ?_⟩
      · simp [setVehicle, set_of_getElem? _ _ _ h0]
      · unfold Vehicle.bookSeat at h1
        split at h1
        · simp at h1; exact Or.inl h1.symm
        · split at h1
          · simp at h1
          · split_ifs at h1 <;> simp at h1 <;> simp [← h1]

/-- What a normal return of the found-vehicle branch tells. -/
theorem bookFound_ok (sys : TransportSystem) (u : Nat) (uo : User) (v : Nat)
    (seat : Int) (b : Bool) (h : (sys.bookFound u uo v seat).2 = .ok b) :
    ∃ vo, sys.vehicleObjs[v]? = some vo ∧ (vo.bookSeat seat uo).2 = .ok () ∧
      sys.bookings.length < 200 ∧ b = true ∧
      (sys.bookFound u uo v seat).1 =
        { sys with
          vehicleObjs := sys.vehicleObjs.set v (vo.bookSeat seat uo).1,
          bookings := sys.bookings ++
            [Booking.new ("BK" ++ toString (sys.bookings.length + 1)) u uo v
              (vo.bookSeat seat uo).1 seat] } := by
  unfold bookFound at h ⊢
  cases h0 : sys.vehicleObjs[v]? with
  | none => simp [h0] at h
  | some vo =>
    simp only [h0] at h ⊢
    cases h1 : (vo.bookSeat seat uo).2 with
    | undefined => simp [h1] at h
    | threw e1 => simp [h1] at h
    | ok x =>
      simp only [h1, recordBooking, bookingCount, setVehicle] at h ⊢
      by_cases hlen : sys.bookings.length < 200
      · simp only [hlen, if_true, Result.ok.injEq] at h ⊢
        exact ⟨vo, rfl, h1, trivial, h.symm, rfl⟩
      · simp [hlen] at h

/-- A normal return of `bookSeat` decomposed: both lookups succeeded, the rider
had paid, and the found-vehicle branch was run. -/
theorem bookSeat_ok_lookup (sys : TransportSystem) (userId vehicleId : String) (seat : Int)
    (b : Bool) (h : (sys.bookSeat userId vehicleId seat).2 = .ok b) :
    ∃ u uo v, sys.getUserById userId = .ok u ∧ sys.userObjs[u]? = some uo ∧
      uo.paymentDone = true ∧ findVehicle sys vehicleId sys.transporters = .ok (some v) ∧
      sys.bookSeat userId vehicleId seat = sys.bookFound u uo v seat := by
  unfold bookSeat at h ⊢
  cases h0 : sys.getUserById userId with
  | undefined => simp [h0] at h
  | threw e => simp [h0] at h
  | ok u =>
    simp only [h0] at h ⊢
    cases h1 : sys.userObjs[u]? with
    | none => simp [h1] at h
    | some uo =>
      simp only [h1] at h ⊢
      cases hp : uo.paymentDone with
      | false => simp [User.getPaymentStatus, hp] at h
      | true =>
        simp only [User.getPaymentStatus, hp, Bool.not_true, Bool.false_eq_true, if_false,
          bookLoop_eq] at h ⊢
        cases h2 : findVehicle sys vehicleId sys.transporters with
        | undefined => simp [h2] at h
        | threw e => simp [h2] at h
        | ok r =>
          cases r with
          | none => simp [h2] at h
          | some v => exact ⟨u, uo, v, rfl, h1, hp, rfl, rfl⟩

/-- With both lookups successful and the rider paid, `bookSeat` is the
found-vehicle branch. -/
theorem bookSeat_of_lookup (sys : TransportSystem) (userId vehicleId : String) (seat : Int)
    (u : Nat) (uo : User) (v : Nat) (hu : sys.getUserById userId = .ok u)
    (huo : sys.userObjs[u]? = some uo) (hp : uo.paymentDone = true)
    (hv : findVehicle sys vehicleId sys.transporters = .ok (some v)) :
    sys.bookSeat userId vehicleId seat = sys.bookFound u uo v seat := by
  unfold bookSeat
  simp [hu, huo, User.getPaymentStatus, hp, bookLoop_eq, hv]

/-- Where an exception out of `bookSeat` comes from; in each case the state is
as it was before the call. -/
theorem bookSeat_threw (sys : TransportSystem) (userId vehicleId : String) (seat : Int)
    (e : TransportException) (h : (sys.bookSeat userId vehicleId seat).2 = .threw e) :
    (sys.bookSeat userId vehicleId seat).1 = sys ∧
    ((sys.getUserById userId = .threw e ∧ e = .UserNotFoundException userId) ∨
      ∃ u uo, sys.getUserById userId = .ok u ∧ sys.userObjs[u]? = some uo ∧
        ((uo.paymentDone = false ∧ e = .PaymentIncompleteException) ∨
         (uo.paymentDone = true ∧ findVehicle sys vehicleId sys.transporters = .ok none ∧
            e = .VehicleNotFoundException vehicleId) ∨
         (uo.paymentDone = true ∧
            (∃ v, findVehicle sys vehicleId sys.transporters = .ok (some v)) ∧
            (e = .SeatUnavailableException seat ∨ e = .RoleMismatchException)))) := by
  cases h0 : sys.getUserById userId with
  | undefined => simp [bookSeat, h0] at h
  | threw e1 =>
    have hb : sys.bookSeat userId vehicleId seat = (sys, .threw e1) := by
      simp [bookSeat, h0]
    rw [hb] at h ⊢
    simp only [Result.threw.injEq] at h
    subst h
    exact ⟨rfl, Or.inl ⟨rfl, (scanUsers_threw _ _ _ _ h0).1⟩⟩
  | ok u =>
    cases h1 : sys.userObjs[u]? with
    | none => simp [bookSeat, h0, h1] at h
    | some uo =>
      cases hp : uo.paymentDone with
      | false =>
        have hb : sys.bookSeat userId vehicleId seat =
            (sys, .threw .PaymentIncompleteException) := by
          simp [bookSeat, h0, h1, User.getPaymentStatus, hp]
        rw [hb] at h ⊢
        simp only [Result.threw.injEq] at h
        exact ⟨rfl, Or.inr ⟨u, uo, rfl, h1, Or.inl ⟨hp, h.symm⟩⟩⟩
      | true =>
        cases h2 : findVehicle sys vehicleId sys.transporters with
        | undefined => simp [bookSeat, h0, h1, User.getPaymentStatus, hp, bookLoop_eq, h2] at h
        | threw e1 => exact absurd h2 (findVehicle_ne_threw _ _ _ _)
        | ok r =>
          cases r with
          | none =>
            have hb : sys.bookSeat userId vehicleId seat =
                (sys, .threw (.VehicleNotFoundException vehicleId)) := by
              simp [bookSeat, h0, h1, User.getPaymentStatus, hp, bookLoop_eq, h2]
            rw [hb] at h ⊢
            simp only [Result.threw.injEq] at h
            exact ⟨rfl, Or.inr ⟨u, uo, rfl, h1, Or.inr (Or.inl ⟨hp, rfl, h.symm⟩)⟩⟩
          | some v =>
            rw [bookSeat_of_lookup sys userId vehicleId seat u uo v h0 h1 hp h2] at h ⊢
            have := bookFound_threw sys u uo v seat e h
            exact ⟨this.1, Or.inr ⟨u, uo, rfl, h1, Or.inr (Or.inr ⟨hp, ⟨v, rfl⟩, this.2⟩)⟩⟩

/-- With valid pointers, a registry in which nobody carries the id makes the
lookup throw. -/
theorem getUserById_absent (sys : TransportSystem) (id : String)
    (hv : sys.usersValid = true)
    (h : ∀ p ∈ sys.users, ∀ u, sys.userObjs[p]? = some u → u.userId ≠ id) :
    sys.getUserById id = .threw (.UserNotFoundException id) := by
  unfold getUserById
  cases h0 : scanUsers sys.userObjs id sys.users with
  | undefined => exact absurd h0 (scanUsers_valid _ _ _ ((usersValid_iff sys).mp hv))
  | threw e => rw [(scanUsers_threw _ _ _ _ h0).1]
  | ok p =>
    obtain ⟨hp, u, hu, hid⟩ := scanUsers_ok _ _ _ _ h0
    exact absurd hid (h p hp u hu)

/-- With valid pointers, providers none of which owns a vehicle with the id
make the vehicle lookup end without a vehicle. -/
theorem findVehicle_absent (sys : TransportSystem) (id : String)
    (hv : sys.transportersValid = true)
    (h : ∀ t ∈ sys.transporters, ∀ tr, sys.transporterObjs[t]? = some tr →
      ∀ p ∈ tr.vehicles, ∀ v, sys.vehicleObjs[p]? = some v → v.vehicleId ≠ id) :
    findVehicle sys id sys.transporters = .ok none := by
  cases h0 : findVehicle sys id sys.transporters with
  | undefined =>
    exact absurd h0 (findVehicle_valid _ _ _ ((transportersValid_iff sys).mp hv))
  | threw e => exact absurd h0 (findVehicle_ne_threw _ _ _ _)
  | ok r =>
    cases r with
    | none => rfl
    | some p =>
      obtain ⟨t, ht, tr, htr, hp, v, hvo, hid⟩ := findVehicle_some _ _ _ _ h0
      exact absurd hid (h t ht tr htr p hp v hvo)

end TransportSystem

/-- With valid pointers, a provider that owns no vehicle with the id answers
`getVehicleById` with the null pointer. -/
theorem Transporter.getVehicleById_absent (tr : Transporter) (objs : List Vehicle)
    (id : String) (hv : ∀ p ∈ tr.vehicles, p < objs.length)
    (h : ∀ p ∈ tr.vehicles, ∀ v, objs[p]? = some v → v.vehicleId ≠ id) :
    tr.getVehicleById objs id = .ok none := by
  unfold Transporter.getVehicleById
  cases h0 : Transporter.scanVehicles objs id tr.vehicles with
  | undefined => exact absurd h0 (Transporter.scanVehicles_valid _ _ _ hv)
  | threw e => exact absurd h0 (Transporter.scanVehicles_ne_threw _ _ _ _)
  | ok r =>
    cases r with
    | none => rfl
    | some p =>
      obtain ⟨hp, v, hvo, hid⟩ := Transporter.scanVehicles_some _ _ _ _ h0
      exact absurd hid (h p hp v hvo)

/-! ## Claims on `Vehicle::bookSeat` and `calculateFare` -/

/-- C1: for a seat index `s` with `0 ≤ s < totalCapacity` whose seat is not yet
booked, `Vehicle::bookSeat` returns normally with the seat booked exactly when
the seat's faculty-only flag equals the rider's `isFacultyMember()`; in the
two other combinations it throws `RoleMismatchException` and leaves the
vehicle as it was. -/
theorem vehicle_bookSeat_role_rule (v : Vehicle) (s : Int) (u : User)
    (_h0 : 0 ≤ s) (hc : s < v.totalCapacity) (hfree : v.isSeatBooked s = .ok false) :
    ((∃ v', v.bookSeat s u = (v', .ok ()) ∧ v'.isSeatBooked s = .ok true) ↔
        v.isSeatForFaculty s = .ok u.isFacultyMember) ∧
    (v.isSeatForFaculty s ≠ .ok u.isFacultyMember →
        v.bookSeat s u = (v, .threw .RoleMismatchException)) := by
  unfold Vehicle.isSeatBooked at hfree
  unfold Vehicle.isSeatForFaculty Vehicle.isSeatBooked Vehicle.bookSeat
  rw [if_neg (by omega)]
  cases hi : seatSlot s with
  | none => simp [hi] at hfree
  | some i =>
    simp only [hi, Result.ok.injEq] at hfree
    cases hf : v.facultySeatOnly.get i <;> cases hu : u.isFacultyMember <;>
      simp [hfree, hf, hu, hi, Mathlib.Vector.get_set_same]

/-- Witness of C1 on the vehicle of `main`: a student on the unmarked seat 6. -/
theorem vehicle_bookSeat_role_rule_witness :
    ((∃ v', mainVehicle.bookSeat 6 (Student "STU301" "Bilal Qureshi") = (v', .ok ()) ∧
        v'.isSeatBooked 6 = .ok true) ↔
      mainVehicle.isSeatForFaculty 6 =
        .ok (Student "STU301" "Bilal Qureshi").isFacultyMember) ∧
    (mainVehicle.isSeatForFaculty 6 ≠
        .ok (Student "STU301" "Bilal Qureshi").isFacultyMember →
      mainVehicle.bookSeat 6 (Student "STU301" "Bilal Qureshi") =
        (mainVehicle, .threw .RoleMismatchException)) :=
  vehicle_bookSeat_role_rule mainVehicle 6 (Student "STU301" "Bilal Qureshi")
    (by decide) (by decide) (by decide)

/-- C4, evaluated on a vehicle of capacity 32: with index 32 the call throws
`SeatUnavailableException` and the vehicle is unchanged, but with index -1 the
test `s >= totalCapacity` is false and the next line subscripts `seatStatus`
with -1, outside the array: no exception is thrown. -/
theorem vehicle_bookSeat_negative_index :
    (Vehicle.new "VH001" true 32).bookSeat 32 (Student "STU301" "Bilal Qureshi") =
      (Vehicle.new "VH001" true 32, .threw (.SeatUnavailableException 32)) ∧
    (Vehicle.new "VH001" true 32).bookSeat (-1) (Student "STU301" "Bilal Qureshi") =
      (Vehicle.new "VH001" true 32, .undefined) := by
  constructor <;> rfl

/-- C8: `calculateFare` depends on the rider's class and the AC flag only, and
its four values are Student/AC 7000, Student/non-AC 5000, Faculty/AC 5000,
Faculty/non-AC 3000. -/
theorem calculateFare_table (u : User) (isAC : Bool) (id name : String) :
    u.calculateFare isAC =
      (if u.isFacultyMember then (if isAC then 5000 else 3000)
       else (if isAC then 7000 else 5000)) ∧
    (Student id name).calculateFare true = 7000 ∧
    (Student id name).calculateFare false = 5000 ∧
    (Faculty id name).calculateFare true = 5000 ∧
    (Faculty id name).calculateFare false = 3000 := by
  refine ⟨?_, rfl, rfl, rfl, rfl⟩
  unfold User.calculateFare User.isFacultyMember
  cases u.kind <;> cases isAC <;> rfl

/-! ## Claims on `TransportSystem::bookSeat` -/

/-- C2: whenever `TransportSystem::bookSeat` returns normally, the same call
on the resulting state throws `SeatUnavailableException` (and changes
nothing). -/
theorem bookSeat_twice (sys sys1 : TransportSystem) (userId vehicleId : String)
    (seat : Int) (b : Bool) (h : sys.bookSeat userId vehicleId seat = (sys1, .ok b)) :
    sys1.bookSeat userId vehicleId seat =
      (sys1, .threw (.SeatUnavailableException seat)) := by
  obtain ⟨u, uo, v, hu, huo, hp, hv, hb⟩ :=
    TransportSystem.bookSeat_ok_lookup sys userId vehicleId seat b (by rw [h])
  obtain ⟨vo, hvo, hok, _, _, hst⟩ :=
    TransportSystem.bookFound_ok sys u uo v seat b (by rw [← hb, h])
  rw [← hb, h] at hst
  simp only at hst
  obtain ⟨i, hi, hcap, _, _, hvo1⟩ := Vehicle.bookSeat_ok vo seat uo hok
  have hlt : v < sys.vehicleObjs.length := (List.getElem?_eq_some_iff.mp hvo).1
  have hu1 : sys1.getUserById userId = .ok u := by
    rw [hst]
    exact hu
  have huo1 : sys1.userObjs[u]? = some uo := by
    rw [hst]
    exact huo
  have hv1 : TransportSystem.findVehicle sys1 vehicleId sys1.transporters = .ok (some v) := by
    have hts : sys1.transporters = sys.transporters := by rw [hst]
    rw [hts, TransportSystem.findVehicle_congr sys sys1 vehicleId (by rw [hst]) ?_, hv]
    intro q
    rw [hst]
    exact getElem?_set_vehicle _ _ _ vo _ hvo (Vehicle.bookSeat_fields vo seat uo).1
  have hvo2 : sys1.vehicleObjs[v]? = some (vo.bookSeat seat uo).1 := by
    rw [hst]
    exact List.getElem?_set_self hlt
  rw [TransportSystem.bookSeat_of_lookup sys1 userId vehicleId seat u uo v hu1 huo1 hp hv1]
  unfold TransportSystem.bookFound
  simp only [hvo2]
  have hbk : (vo.bookSeat seat uo).1.bookSeat seat uo =
      ((vo.bookSeat seat uo).1, .threw (.SeatUnavailableException seat)) := by
    apply Vehicle.bookSeat_booked _ seat uo i hi
    · rw [(Vehicle.bookSeat_fields vo seat uo).2.2.1]
      exact hcap
    · rw [hvo1]
      exact Mathlib.Vector.get_set_same _ _ _
  rw [hbk]
  simp only [TransportSystem.setVehicle, set_of_getElem? _ _ _ hvo2]

/-- Witness of C2: the first booking of `main`, repeated. -/
theorem bookSeat_twice_witness :
    afterFirstBooking.bookSeat "STU301" "VH001" 6 =
      (afterFirstBooking, .threw (.SeatUnavailableException 6)) :=
  bookSeat_twice (mainSystem true true) afterFirstBooking "STU301" "VH001" 6 true (by rfl)

/-- C3: when the rider that `getUserById` finds for the rider id has the
payment flag false, `TransportSystem::bookSeat` throws
`PaymentIncompleteException` whatever the vehicle id and the seat index are,
and the state (every seat of every vehicle included) is unchanged. -/
theorem bookSeat_unpaid (sys : TransportSystem) (userId vehicleId : String) (seat : Int)
    (u : Nat) (uo : User) (hu : sys.getUserById userId = .ok u)
    (huo : sys.userObjs[u]? = some uo) (hp : uo.paymentDone = false) :
    sys.bookSeat userId vehicleId seat = (sys, .threw .PaymentIncompleteException) := by
  simp [TransportSystem.bookSeat, hu, huo, User.getPaymentStatus, hp]

/-- Witness of C3: the unpaid student of `main`, a vehicle id that does not
exist and a negative seat index. -/
theorem bookSeat_unpaid_witness :
    (mainSystem false true).bookSeat "STU301" "VH999" (-5) =
      (mainSystem false true, .threw .PaymentIncompleteException) :=
  bookSeat_unpaid (mainSystem false true) "STU301" "VH999" (-5) 0
    (Student "STU301" "Bilal Qureshi") (by rfl) (by rfl) (by rfl)

/-- C5: when `TransportSystem::bookSeat` throws, the state at the throw is the
state before the call: object stores (seat flags, faculty-only flags, payment
flags), registry, ledger and providers are all unchanged. -/
theorem bookSeat_error_atomic (sys sys1 : TransportSystem) (userId vehicleId : String)
    (seat : Int) (e : TransportException)
    (h : sys.bookSeat userId vehicleId seat = (sys1, .threw e)) : sys1 = sys := by
  have := (TransportSystem.bookSeat_threw sys userId vehicleId seat e (by rw [h])).1
  rw [h] at this
  exact this

/-- Witness of C5: a faculty member on the unmarked seat 6 of the vehicle of
`main` is rejected with `RoleMismatchException`. -/
theorem bookSeat_error_atomic_witness :
    ((mainSystem true true).bookSeat "FAC404" "VH001" 6).1 = mainSystem true true :=
  bookSeat_error_atomic (mainSystem true true)
    ((mainSystem true true).bookSeat "FAC404" "VH001" 6).1 "FAC404" "VH001" 6
    .RoleMismatchException (by rfl)

/-- C6: when `TransportSystem::bookSeat` returns normally, the ledger is the
old ledger followed by one booking, which holds the pointer `getUserById`
returned, the pointer of the first vehicle with the id, the requested seat and
the fare `calculateFare` gives for that rider and the AC flag of that vehicle
in the state before the call. -/
theorem bookSeat_success_ledger (sys sys1 : TransportSystem) (userId vehicleId : String)
    (seat : Int) (b : Bool) (h : sys.bookSeat userId vehicleId seat = (sys1, .ok b)) :
    ∃ u uo v vo code, sys.getUserById userId = .ok u ∧ sys.userObjs[u]? = some uo ∧
      TransportSystem.findVehicle sys vehicleId sys.transporters = .ok (some v) ∧
      sys.vehicleObjs[v]? = some vo ∧
      sys1.bookings = sys.bookings ++
        [{ bookingCode := code, passenger := u, rideVehicle := v, bookedSeat := seat,
           totalFare := uo.calculateFare vo.isAC }] := by
  obtain ⟨u, uo, v, hu, huo, _, hv, hb⟩ :=
    TransportSystem.bookSeat_ok_lookup sys userId vehicleId seat b (by rw [h])
  obtain ⟨vo, hvo, _, _, _, hst⟩ :=
    TransportSystem.bookFound_ok sys u uo v seat b (by rw [← hb, h])
  rw [← hb, h] at hst
  simp only at hst
  refine ⟨u, uo, v, vo, "BK" ++ toString (sys.bookings.length + 1), hu, huo, hv, hvo, ?_⟩
  rw [hst]
  simp [Booking.new, Vehicle.getACStatus, (Vehicle.bookSeat_fields vo seat uo).2.1]

/-- Witness of C6: the first booking of `main`. -/
theorem bookSeat_success_ledger_witness :
    ∃ u uo v vo code, (mainSystem true true).getUserById "STU301" = .ok u ∧
      (mainSystem true true).userObjs[u]? = some uo ∧
      TransportSystem.findVehicle (mainSystem true true) "VH001"
        (mainSystem true true).transporters = .ok (some v) ∧
      (mainSystem true true).vehicleObjs[v]? = some vo ∧
      afterFirstBooking.bookings = (mainSystem true true).bookings ++
        [{ bookingCode := code, passenger := u, rideVehicle := v, bookedSeat := 6,
           totalFare := uo.calculateFare vo.isAC }] :=
  bookSeat_success_ledger (mainSystem true true) afterFirstBooking "STU301" "VH001" 6 true
    (by rfl)

/-- C7: when the ledger holds `n` bookings and `TransportSystem::bookSeat`
returns normally, the new booking is at position `n` of the ledger, its code is
"BK" followed by the decimal digits of `n + 1`, and the count is `n + 1`. -/
theorem bookSeat_code (sys sys1 : TransportSystem) (userId vehicleId : String)
    (seat : Int) (b : Bool) (h : sys.bookSeat userId vehicleId seat = (sys1, .ok b)) :
    ∃ bk, sys1.bookings[sys.bookingCount]? = some bk ∧
      bk.bookingCode = "BK" ++ String.mk (Nat.toDigits 10 (sys.bookingCount + 1)) ∧
      sys1.bookingCount = sys.bookingCount + 1 := by
  obtain ⟨u, uo, v, _, _, _, _, hb⟩ :=
    TransportSystem.bookSeat_ok_lookup sys userId vehicleId seat b (by rw [h])
  obtain ⟨vo, _, _, _, _, hst⟩ :=
    TransportSystem.bookFound_ok sys u uo v seat b (by rw [← hb, h])
  rw [← hb, h] at hst
  simp only at hst
  refine ⟨Booking.new ("BK" ++ toString (sys.bookings.length + 1)) u uo v
    (vo.bookSeat seat uo).1 seat, ?_, rfl, ?_⟩
  · rw [hst]
    simp [TransportSystem.bookingCount]
  · rw [hst]
    simp [TransportSystem.bookingCount]

/-- Witness of C7: the second booking of `main`, made when the ledger holds
one booking. -/
theorem bookSeat_code_witness :
    ∃ bk, (afterFirstBooking.bookSeat "FAC404" "VH001" 1).1.bookings[
        afterFirstBooking.bookingCount]? = some bk ∧
      bk.bookingCode = "BK" ++ String.mk (Nat.toDigits 10 (afterFirstBooking.bookingCount + 1)) ∧
      (afterFirstBooking.bookSeat "FAC404" "VH001" 1).1.bookingCount =
        afterFirstBooking.bookingCount + 1 :=
  bookSeat_code afterFirstBooking (afterFirstBooking.bookSeat "FAC404" "VH001" 1).1
    "FAC404" "VH001" 1 true (by rfl)

/-- C9: in a state whose registry holds valid pointers,
`TransportSystem::bookSeat` throws `UserNotFoundException` carrying the rider
id exactly when no rider in the registry has that id, whatever the vehicle id
and the seat index are; a `UserNotFoundException` it throws never carries
another id. -/
theorem bookSeat_riderNotFound_iff (sys : TransportSystem) (userId vehicleId : String)
    (seat : Int) (hv : sys.usersValid = true) :
    ((sys.bookSeat userId vehicleId seat).2 = .threw (.UserNotFoundException userId) ↔
      ∀ p ∈ sys.users, ∀ u, sys.userObjs[p]? = some u → u.userId ≠ userId) ∧
    (∀ id, (sys.bookSeat userId vehicleId seat).2 = .threw (.UserNotFoundException id) →
      id = userId) := by
  have key : ∀ id, (sys.bookSeat userId vehicleId seat).2 =
      .threw (.UserNotFoundException id) →
      sys.getUserById userId = .threw (.UserNotFoundException userId) ∧ id = userId := by
    intro id h
    rcases (TransportSystem.bookSeat_threw sys userId vehicleId seat _ h).2 with
      ⟨h1, h2⟩ | ⟨u, uo, _, _, h3⟩
    · simp only [TransportException.UserNotFoundException.injEq] at h2
      subst h2
      exact ⟨h1, rfl⟩
    · rcases h3 with ⟨_, h4⟩ | ⟨_, _, h4⟩ | ⟨_, _, h4 | h4⟩ <;> simp at h4
  refine ⟨⟨fun h => ?_, fun h => ?_⟩, fun id h => (key id h).2⟩
  · exact (TransportSystem.scanUsers_threw _ _ _ _ (key userId h).1).2
  · simp [TransportSystem.bookSeat, TransportSystem.getUserById_absent sys userId hv h]

/-- Witness of C9: the state of `main` with an id nobody carries. -/
theorem bookSeat_riderNotFound_iff_witness :
    (((mainSystem true true).bookSeat "STU999" "VH001" 6).2 =
        .threw (.UserNotFoundException "STU999") ↔
      ∀ p ∈ (mainSystem true true).users, ∀ u,
        (mainSystem true true).userObjs[p]? = some u → u.userId ≠ "STU999") ∧
    (∀ id, ((mainSystem true true).bookSeat "STU999" "VH001" 6).2 =
        .threw (.UserNotFoundException id) → id = "STU999") :=
  bookSeat_riderNotFound_iff (mainSystem true true) "STU999" "VH001" 6 (by decide)

/-- C10: in a state whose provider and vehicle pointers are valid and in which
the rider id designates a registered rider who has paid,
`TransportSystem::bookSeat` throws `VehicleNotFoundException` exactly when no
vehicle of any registered provider has the vehicle id;
`Transporter::getVehicleById` answers a provider without such a vehicle with
the null pointer and throws nothing. -/
theorem bookSeat_vehicleNotFound_iff (sys : TransportSystem) (userId vehicleId : String)
    (seat : Int) (u : Nat) (uo : User) (hu : sys.getUserById userId = .ok u)
    (huo : sys.userObjs[u]? = some uo) (hp : uo.paymentDone = true)
    (hv : sys.transportersValid = true) :
    ((sys.bookSeat userId vehicleId seat).2 =
        .threw (.VehicleNotFoundException vehicleId) ↔
      ∀ t ∈ sys.transporters, ∀ tr, sys.transporterObjs[t]? = some tr →
        ∀ p ∈ tr.vehicles, ∀ v, sys.vehicleObjs[p]? = some v → v.vehicleId ≠ vehicleId) ∧
    (∀ t ∈ sys.transporters, ∀ tr, sys.transporterObjs[t]? = some tr →
      (∀ p ∈ tr.vehicles, ∀ v, sys.vehicleObjs[p]? = some v → v.vehicleId ≠ vehicleId) →
      tr.getVehicleById sys.vehicleObjs vehicleId = .ok none) := by
  refine ⟨⟨fun h => ?_, fun h => ?_⟩, fun t ht tr htr hno => ?_⟩
  · rcases (TransportSystem.bookSeat_threw sys userId vehicleId seat _ h).2 with
      ⟨_, h2⟩ | ⟨u1, uo1, _, _, h3⟩
    · simp at h2
    · rcases h3 with ⟨_, h4⟩ | ⟨_, h4, _⟩ | ⟨_, _, h4 | h4⟩
      · simp at h4
      · exact TransportSystem.findVehicle_none sys vehicleId _ h4
      · simp at h4
      · simp at h4
  · simp [TransportSystem.bookSeat, hu, huo, User.getPaymentStatus, hp,
      TransportSystem.bookLoop_eq, TransportSystem.findVehicle_absent sys vehicleId hv h]
  · obtain ⟨tr1, htr1, hvalid⟩ := (TransportSystem.transportersValid_iff sys).mp hv t ht
    rw [htr] at htr1
    cases htr1
    exact Transporter.getVehicleById_absent tr _ _ hvalid hno

/-- Witness of C10: the paid student of `main` and a vehicle id no provider
owns. -/
theorem bookSeat_vehicleNotFound_iff_witness :
    (((mainSystem true true).bookSeat "STU301" "VH999" 6).2 =
        .threw (.VehicleNotFoundException "VH999") ↔
      ∀ t ∈ (mainSystem true true).transporters, ∀ tr,
        (mainSystem true true).transporterObjs[t]? = some tr →
        ∀ p ∈ tr.vehicles, ∀ v, (mainSystem true true).vehicleObjs[p]? = some v →
          v.vehicleId ≠ "VH999") ∧
    (∀ t ∈ (mainSystem true true).transporters, ∀ tr,
      (mainSystem true true).transporterObjs[t]? = some tr →
      (∀ p ∈ tr.vehicles, ∀ v, (mainSystem true true).vehicleObjs[p]? = some v →
        v.vehicleId ≠ "VH999") →
      tr.getVehicleById (mainSystem true true).vehicleObjs "VH999" = .ok none) :=
  bookSeat_vehicleNotFound_iff (mainSystem true true) "STU301" "VH999" 6 0
    (Student "STU301" "Bilal Qureshi").makePayment (by rfl) (by rfl) (by rfl) (by decide)

/-! ## Further claims on `Vehicle` -/

/-- C11: for an in-range seat whose booked flag is set, `Vehicle::bookSeat`
throws `SeatUnavailableException` for a rider of either class and whatever the
faculty-only flag of the seat is; the vehicle is unchanged. -/
theorem vehicle_bookSeat_already_booked (v : Vehicle) (s : Int) (u : User)
    (_h0 : 0 ≤ s) (hc : s < v.totalCapacity) (hb : v.isSeatBooked s = .ok true) :
    v.bookSeat s u = (v, .threw (.SeatUnavailableException s)) := by
  unfold Vehicle.isSeatBooked at hb
  cases hi : seatSlot s with
  | none => simp [hi] at hb
  | some i =>
    simp only [hi, Result.ok.injEq] at hb
    exact Vehicle.bookSeat_booked v s u i hi hc hb

/-- Witness of C11: the faculty member of `main` on seat 6 after the student
has booked it. -/
theorem vehicle_bookSeat_already_booked_witness :
    (mainVehicle.bookSeat 6 (Student "STU301" "Bilal Qureshi")).1.bookSeat 6
        (Faculty "FAC404" "Prof. Hina Siddiqui") =
      ((mainVehicle.bookSeat 6 (Student "STU301" "Bilal Qureshi")).1,
        .threw (.SeatUnavailableException 6)) :=
  vehicle_bookSeat_already_booked _ 6 _ (by decide) (by decide) (by decide)

/-- C15, as stated, fails: on a vehicle of capacity 32, marking seat 40 throws
nothing and changes the restriction mask. -/
theorem markSeatForFaculty_unchecked :
    ((Vehicle.new "VH001" true 32).markSeatForFaculty 40).2 = .ok () ∧
    ((Vehicle.new "VH001" true 32).markSeatForFaculty 40).1.facultySeatOnly ≠
      (Vehicle.new "VH001" true 32).facultySeatOnly := by
  decide

/-- C15, amended: for every vehicle, whatever its capacity, and every seat
index in `[0, 52)`, `markSeatForFaculty` returns normally, sets the restriction
of that seat, leaves the restriction of every other seat as it was and changes
no other field, the booked flags included. -/
theorem markSeatForFaculty_frame (v : Vehicle) (s : Int) (h0 : 0 ≤ s) (h1 : s < 52) :
    ∃ i, seatSlot s = some i ∧ (v.markSeatForFaculty s).2 = .ok () ∧
      (v.markSeatForFaculty s).1.facultySeatOnly.get i = true ∧
      (∀ j, j ≠ i → (v.markSeatForFaculty s).1.facultySeatOnly.get j =
        v.facultySeatOnly.get j) ∧
      (v.markSeatForFaculty s).1.seatStatus = v.seatStatus ∧
      (v.markSeatForFaculty s).1.totalCapacity = v.totalCapacity ∧
      (v.markSeatForFaculty s).1.vehicleId = v.vehicleId ∧
      (v.markSeatForFaculty s).1.isAC = v.isAC := by
  obtain ⟨i, hi⟩ := seatSlot_of_range h0 h1
  refine ⟨i, hi, ?_⟩
  unfold Vehicle.markSeatForFaculty
  simp only [hi, Mathlib.Vector.get_set_same, true_and, and_true]
  intro j hj
  exact Mathlib.Vector.get_set_of_ne (Ne.symm hj) _

/-- Witness of C15 amended: seat 40 of a vehicle of capacity 32. -/
theorem markSeatForFaculty_frame_witness :
    ∃ i, seatSlot 40 = some i ∧
      ((Vehicle.new "VH001" true 32).markSeatForFaculty 40).2 = .ok () ∧
      ((Vehicle.new "VH001" true 32).markSeatForFaculty 40).1.facultySeatOnly.get i = true ∧
      (∀ j, j ≠ i → ((Vehicle.new "VH001" true 32).markSeatForFaculty 40).1.facultySeatOnly.get j =
        (Vehicle.new "VH001" true 32).facultySeatOnly.get j) ∧
      ((Vehicle.new "VH001" true 32).markSeatForFaculty 40).1.seatStatus =
        (Vehicle.new "VH001" true 32).seatStatus ∧
      ((Vehicle.new "VH001" true 32).markSeatForFaculty 40).1.totalCapacity =
        (Vehicle.new "VH001" true 32).totalCapacity ∧
      ((Vehicle.new "VH001" true 32).markSeatForFaculty 40).1.vehicleId =
        (Vehicle.new "VH001" true 32).vehicleId ∧
      ((Vehicle.new "VH001" true 32).markSeatForFaculty 40).1.isAC =
        (Vehicle.new "VH001" true 32).isAC :=
  markSeatForFaculty_frame (Vehicle.new "VH001" true 32) 40 (by decide) (by decide)

/-- C19: on a vehicle whose capacity is at most 52, `Vehicle::bookSeat` with a
seat index `s ≥ 0` subscripts the two arrays inside `[0, 52)` only: the outcome
is never the undefined one.  The constructor stores any capacity as given, and
with capacity 60 and index 55 the subscript is out of range. -/
theorem vehicle_bookSeat_in_bounds (v : Vehicle) (s : Int) (u : User) (id : String)
    (ac : Bool) (c : Int) (hc : v.totalCapacity ≤ 52) (hs : 0 ≤ s) :
    (v.bookSeat s u).2 ≠ .undefined ∧
    (Vehicle.new id ac c).totalCapacity = c ∧
    ((Vehicle.new id ac 60).bookSeat 55 u).2 = .undefined := by
  refine ⟨?_, rfl, ?_⟩
  · unfold Vehicle.bookSeat
    by_cases hcap : v.totalCapacity ≤ s
    · simp [hcap]
    · obtain ⟨i, hi⟩ := seatSlot_of_range hs (by omega)
      simp only [if_neg hcap, hi]
      split_ifs <;> simp
  · have h55 : seatSlot 55 = none := by decide
    simp [Vehicle.bookSeat, Vehicle.new, h55]

/-- Witness of C19: the vehicle of `main` and seat 6. -/
theorem vehicle_bookSeat_in_bounds_witness :
    (mainVehicle.bookSeat 6 (Student "STU301" "Bilal Qureshi")).2 ≠ .undefined ∧
    (Vehicle.new "VH001" true 32).totalCapacity = 32 ∧
    ((Vehicle.new "VH001" true 60).bookSeat 55 (Student "STU301" "Bilal Qureshi")).2 =
      .undefined :=
  vehicle_bookSeat_in_bounds mainVehicle 6 (Student "STU301" "Bilal Qureshi") "VH001" true 32
    (by decide) (by decide)

/-! ## Registering and looking up riders -/

theorem TransportSystem.scanUsers_append (objs : List User) (id : String) (ps qs : List Nat) :
    TransportSystem.scanUsers objs id (ps ++ qs) =
      match TransportSystem.scanUsers objs id ps with
      | .ok p => .ok p
      | .undefined => .undefined
      | .threw _ => TransportSystem.scanUsers objs id qs := by
  induction ps with
  | nil => simp [TransportSystem.scanUsers]
  | cons p ps ih =>
    simp only [List.cons_append, TransportSystem.scanUsers]
    cases objs[p]? with
    | none => rfl
    | some u =>
      by_cases hid : u.getId = id
      · simp [hid]
      · simp only [hid, if_false]
        exact ih

theorem TransportSystem.scanUsers_absent (objs : List User) (id : String) (ps : List Nat)
    (hv : ∀ p ∈ ps, p < objs.length)
    (h : ∀ p ∈ ps, ∀ u, objs[p]? = some u → u.userId ≠ id) :
    TransportSystem.scanUsers objs id ps = .threw (.UserNotFoundException id) := by
  cases h0 : TransportSystem.scanUsers objs id ps with
  | undefined => exact absurd h0 (TransportSystem.scanUsers_valid _ _ _ hv)
  | threw e => rw [(TransportSystem.scanUsers_threw _ _ _ _ h0).1]
  | ok p =>
    obtain ⟨hp, u, hu, hid⟩ := TransportSystem.scanUsers_ok _ _ _ _ h0
    exact absurd hid (h p hp u hu)

/-- C20: in a registry of valid pointers, let `p` point to the rider `r`.
With fewer than 100 riders registered and none of them carrying the id of `r`,
after `registerUser(p)` the lookup of that id returns `p` and the lookup of
every other id gives what it gave before.  With 100 riders registered
`registerUser` changes nothing, so an id nobody carried is still not found.
When `p` is registered and no rider registered before it carries the id of
`r`, the lookup returns `p`, whoever is registered after it. -/
theorem registerUser_getUserById (sys : TransportSystem) (p : Nat) (r : User)
    (hv : sys.usersValid = true) (hr : sys.userObjs[p]? = some r) :
    (sys.userCount < 100 →
      (∀ q ∈ sys.users, ∀ u, sys.userObjs[q]? = some u → u.userId ≠ r.userId) →
      (sys.registerUser p).getUserById r.userId = .ok p ∧
      ∀ j, j ≠ r.userId → (sys.registerUser p).getUserById j = sys.getUserById j) ∧
    (100 ≤ sys.userCount → sys.registerUser p = sys ∧
      ((∀ q ∈ sys.users, ∀ u, sys.userObjs[q]? = some u → u.userId ≠ r.userId) →
        (sys.registerUser p).getUserById r.userId =
          .threw (.UserNotFoundException r.userId))) ∧
    (∀ pre post, sys.users = pre ++ p :: post →
      (∀ q ∈ pre, ∀ u, sys.userObjs[q]? = some u → u.userId ≠ r.userId) →
      sys.getUserById r.userId = .ok p) := by
  have hvalid := (TransportSystem.usersValid_iff sys).mp hv
  have hone : ∀ j, TransportSystem.scanUsers sys.userObjs j [p] =
      if r.userId = j then .ok p else .threw (.UserNotFoundException j) := by
    intro j
    simp [TransportSystem.scanUsers, hr, User.getId]
  refine ⟨fun hlt hno => ?_, fun hge => ?_, fun pre post hsplit hpre => ?_⟩
  · have hreg : sys.registerUser p = { sys with users := sys.users ++ [p] } := by
      simp [TransportSystem.registerUser, hlt]
    rw [hreg]
    refine ⟨?_, fun j hj => ?_⟩
    · simp only [TransportSystem.getUserById, TransportSystem.scanUsers_append,
        TransportSystem.scanUsers_absent _ _ _ hvalid hno, hone, if_true]
    · simp only [TransportSystem.getUserById, TransportSystem.scanUsers_append, hone,
        if_neg (Ne.symm hj)]
      cases h0 : TransportSystem.scanUsers sys.userObjs j sys.users with
      | ok q => rfl
      | undefined => rfl
      | threw e => simp [(TransportSystem.scanUsers_threw _ _ _ _ h0).1]
  · have hreg : sys.registerUser p = sys := by
      simp [TransportSystem.registerUser, Nat.not_lt.mpr hge]
    rw [hreg]
    exact ⟨rfl, fun hno => TransportSystem.getUserById_absent sys r.userId hv hno⟩
  · have hprev : ∀ q ∈ pre, q < sys.userObjs.length := fun q hq =>
      hvalid q (by rw [hsplit]; exact List.mem_append_left _ hq)
    simp only [TransportSystem.getUserById, hsplit, TransportSystem.scanUsers_append,
      TransportSystem.scanUsers_absent _ _ _ hprev hpre]
    simp [TransportSystem.scanUsers, hr, User.getId]

/-- Witness of C20: the third rider registered after the two riders of `main`. -/
theorem registerUser_getUserById_witness :
    ({ afterSecondBooking with
        userObjs := afterSecondBooking.userObjs ++ [Student "STU302" "Unpaid Rider"] } :
      TransportSystem).userCount < 100 ∧
    withUnpaidRider.getUserById "STU302" = .ok 2 ∧
    withUnpaidRider.getUserById "FAC404" = afterSecondBooking.getUserById "FAC404" :=
  have h := registerUser_getUserById
    { afterSecondBooking with
      userObjs := afterSecondBooking.userObjs ++ [Student "STU302" "Unpaid Rider"] } 2
    (Student "STU302" "Unpaid Rider") (by decide) (by rfl)
  ⟨by decide, (h.1 (by decide) (by decide)).1,
    ((h.1 (by decide) (by decide)).2 "FAC404" (by decide)).trans (by rfl)⟩

/-! ## The scenario of `main` and a full ledger -/

/-- C14: in the state built by `main` (vehicle "VH001" of capacity 32 with AC
and seats 0 to 3 marked for faculty, both riders paid) the two calls of `main`
return normally and leave the ledger BK1 (STU301, seat 6, fare 7000), BK2
(FAC404, seat 1, fare 5000); afterwards either rider asking for seat 6 gets
`SeatUnavailableException`, and a registered rider who has not paid gets
`PaymentIncompleteException` for every seat. -/
theorem main_scenario :
    (mainVehicle.vehicleId = "VH001" ∧ mainVehicle.totalCapacity = 32 ∧
      mainVehicle.isAC = true ∧
      ∀ i : Fin 52, mainVehicle.facultySeatOnly.get i = decide (i.val < 4)) ∧
    (mainSystem true true).bookSeat "STU301" "VH001" 6 = (afterFirstBooking, .ok true) ∧
    afterFirstBooking.bookSeat "FAC404" "VH001" 1 = (afterSecondBooking, .ok true) ∧
    afterSecondBooking.bookings =
      [{ bookingCode := "BK1", passenger := 0, rideVehicle := 0, bookedSeat := 6,
         totalFare := 7000 },
       { bookingCode := "BK2", passenger := 1, rideVehicle := 0, bookedSeat := 1,
         totalFare := 5000 }] ∧
    afterSecondBooking.userObjs.map User.getId = ["STU301", "FAC404"] ∧
    afterSecondBooking.vehicleObjs.map Vehicle.getId = ["VH001"] ∧
    afterSecondBooking.bookSeat "STU301" "VH001" 6 =
      (afterSecondBooking, .threw (.SeatUnavailableException 6)) ∧
    afterSecondBooking.bookSeat "FAC404" "VH001" 6 =
      (afterSecondBooking, .threw (.SeatUnavailableException 6)) ∧
    ∀ seat, withUnpaidRider.bookSeat "STU302" "VH001" seat =
      (withUnpaidRider, .threw .PaymentIncompleteException) := by
  refine ⟨⟨rfl, rfl, rfl, by decide⟩, by rfl, by rfl, by rfl, by rfl, by rfl, by rfl, by rfl,
    fun seat => ?_⟩
  have hu : withUnpaidRider.getUserById "STU302" = .ok 2 := by rfl
  have huo : withUnpaidRider.userObjs[2]? = some (Student "STU302" "Unpaid Rider") := by rfl
  simp [TransportSystem.bookSeat, hu, huo, User.getPaymentStatus, Student]

set_option maxRecDepth 100000 in
/-- C16, evaluated on the state reached by two hundred bookings: the ledger
holds 200 bookings and 200 seats are booked; the next call, for the free seat
44 of "VH004", throws nothing, sets the seat and then stores into `bookings`
at index 200, outside the array. -/
theorem bookSeat_full_ledger :
    fullLedgerSystem.bookings.length = 200 ∧ fullLedgerSystem.totalBooked = 200 ∧
    (fullLedgerSystem.vehicleObjs.map fun v => v.isSeatBooked 44) =
      [.ok true, .ok true, .ok true, .ok false] ∧
    (fullLedgerSystem.bookSeat "STU301" "VH004" 44).2 = .undefined ∧
    ((fullLedgerSystem.bookSeat "STU301" "VH004" 44).1.vehicleObjs.map
        fun v => v.isSeatBooked 44) = [.ok true, .ok true, .ok true, .ok true] ∧
    (fullLedgerSystem.bookSeat "STU301" "VH004" 44).1.bookings.length = 200 := by
  refine ⟨?_, ?_, ?_, ?_, ?_, ?_⟩ <;> rfl

/-! ## The effect of a successful booking -/

/-- Everything a normal return of `bookSeat` tells: the lookups, the tests
passed in `Vehicle::bookSeat`, and the state reached. -/
theorem TransportSystem.bookSeat_ok_step (sys sys1 : TransportSystem)
    (userId vehicleId : String) (seat : Int) (b : Bool)
    (h : sys.bookSeat userId vehicleId seat = (sys1, .ok b)) :
    ∃ u uo p vo i, sys.getUserById userId = .ok u ∧ sys.userObjs[u]? = some uo ∧
      uo.paymentDone = true ∧
      TransportSystem.findVehicle sys vehicleId sys.transporters = .ok (some p) ∧
      sys.vehicleObjs[p]? = some vo ∧ seatSlot seat = some i ∧ seat < vo.totalCapacity ∧
      vo.seatStatus.get i = false ∧ vo.facultySeatOnly.get i = uo.isFacultyMember ∧
      sys.bookings.length < 200 ∧
      sys1 = { sys with
        vehicleObjs := sys.vehicleObjs.set p { vo with seatStatus := vo.seatStatus.set i true },
        bookings := sys.bookings ++
          [{ bookingCode := "BK" ++ toString (sys.bookings.length + 1), passenger := u,
             rideVehicle := p, bookedSeat := seat, totalFare := uo.calculateFare vo.isAC }] } := by
  obtain ⟨u, uo, p, hu, huo, hp, hv, hb⟩ :=
    TransportSystem.bookSeat_ok_lookup sys userId vehicleId seat b (by rw [h])
  obtain ⟨vo, hvo, hok, hlen, _, hst⟩ :=
    TransportSystem.bookFound_ok sys u uo p seat b (by rw [← hb, h])
  rw [← hb, h] at hst
  simp only at hst
  obtain ⟨i, hi, hcap, hfree, hfac, hvo1⟩ := Vehicle.bookSeat_ok vo seat uo hok
  refine ⟨u, uo, p, vo, i, hu, huo, hp, hv, hvo, hi, hcap, hfree, hfac, hlen, ?_⟩
  rw [hst, hvo1]
  simp [Booking.new, Vehicle.getACStatus]

theorem Transporter.scanVehicles_first (objs : List Vehicle) (id : String) (ps : List Nat)
    (p : Nat) (h : Transporter.scanVehicles objs id ps = .ok (some p)) :
    ∃ pre post, ps = pre ++ p :: post ∧
      ∀ q ∈ pre, ∀ w, objs[q]? = some w → w.vehicleId ≠ id := by
  induction ps with
  | nil => simp [Transporter.scanVehicles] at h
  | cons q ps ih =>
    unfold Transporter.scanVehicles at h
    cases h0 : objs[q]? with
    | none => simp [h0] at h
    | some v =>
      by_cases hid : v.getId = id
      · simp only [h0, hid, if_true, Result.ok.injEq, Option.some.injEq] at h
        subst h
        exact ⟨[], ps, rfl, by simp⟩
      · simp only [h0, hid, if_false] at h
        obtain ⟨pre, post, hps, hpre⟩ := ih h
        refine ⟨q :: pre, post, by rw [hps]; rfl, ?_⟩
        intro r hr w hw
        rcases List.mem_cons.mp hr with rfl | hr
        · rw [h0] at hw
          cases hw
          exact hid
        · exact hpre r hr w hw

/-- The vehicle the loop of `bookSeat` finds is the first one with the id in
the order of `vehiclePtrs`. -/
theorem TransportSystem.findVehicle_first (sys : TransportSystem) (id : String)
    (ts : List Nat) (p : Nat) (h : TransportSystem.findVehicle sys id ts = .ok (some p)) :
    ∃ pre post,
      (ts.flatMap fun t =>
        match sys.transporterObjs[t]? with
        | none => []
        | some tr => tr.vehicles) = pre ++ p :: post ∧
      ∀ q ∈ pre, ∀ w, sys.vehicleObjs[q]? = some w → w.vehicleId ≠ id := by
  induction ts with
  | nil => simp [TransportSystem.findVehicle] at h
  | cons t ts ih =>
    unfold TransportSystem.findVehicle at h
    cases h0 : sys.transporterObjs[t]? with
    | none => simp [h0] at h
    | some tr =>
      simp only [h0, Transporter.getVehicleById] at h
      simp only [List.flatMap_cons, h0]
      cases h1 : Transporter.scanVehicles sys.vehicleObjs id tr.vehicles with
      | undefined => simp [h1] at h
      | threw e1 => simp [h1] at h
      | ok r =>
        cases r with
        | none =>
          simp only [h1] at h
          obtain ⟨pre, post, hps, hpre⟩ := ih h
          refine ⟨tr.vehicles ++ pre, post, by rw [hps, List.append_assoc], ?_⟩
          intro q hq w hw
          rcases List.mem_append.mp hq with hq | hq
          · exact Transporter.scanVehicles_none _ _ _ h1 q hq w hw
          · exact hpre q hq w hw
        | some v =>
          simp only [h1, Result.ok.injEq, Option.some.injEq] at h
          subst h
          obtain ⟨pre, post, hps, hpre⟩ := Transporter.scanVehicles_first _ _ _ _ h1
          refine ⟨pre, post ++ (ts.flatMap fun t =>
            match sys.transporterObjs[t]? with
            | none => []
            | some tr => tr.vehicles), ?_, hpre⟩
          rw [hps]
          simp

/-- C18: a normal return of `TransportSystem::bookSeat` sets one booked flag,
that of the requested seat in the first vehicle with the id in provider order
and then insertion order, which was clear before.  In that vehicle every other
booked flag and every other field are as before, every other `Vehicle` object
is as before, and so are the `User` objects (payment flags included), the
registry, the providers and their vehicle lists. -/
theorem bookSeat_frame (sys sys1 : TransportSystem) (userId vehicleId : String)
    (seat : Int) (b : Bool) (h : sys.bookSeat userId vehicleId seat = (sys1, .ok b)) :
    ∃ p vo vo1 i, sys.vehicleObjs[p]? = some vo ∧ sys1.vehicleObjs[p]? = some vo1 ∧
      vo.vehicleId = vehicleId ∧ seatSlot seat = some i ∧
      (∃ pre post, sys.vehiclePtrs = pre ++ p :: post ∧
        ∀ q ∈ pre, ∀ w, sys.vehicleObjs[q]? = some w → w.vehicleId ≠ vehicleId) ∧
      vo.seatStatus.get i = false ∧ vo1.seatStatus.get i = true ∧
      (∀ j, j ≠ i → vo1.seatStatus.get j = vo.seatStatus.get j) ∧
      vo1.facultySeatOnly = vo.facultySeatOnly ∧ vo1.vehicleId = vo.vehicleId ∧
      vo1.isAC = vo.isAC ∧ vo1.totalCapacity = vo.totalCapacity ∧
      vo1.driverAssigned = vo.driverAssigned ∧ vo1.assignedRoute = vo.assignedRoute ∧
      (∀ q : Nat, q ≠ p → sys1.vehicleObjs[q]? = sys.vehicleObjs[q]?) ∧
      sys1.userObjs = sys.userObjs ∧ sys1.users = sys.users ∧
      sys1.transporterObjs = sys.transporterObjs ∧ sys1.transporters = sys.transporters := by
  obtain ⟨u, uo, p, vo, i, _, _, _, hv, hvo, hi, _, hfree, _, _, hst⟩ :=
    TransportSystem.bookSeat_ok_step sys sys1 userId vehicleId seat b h
  have hlt : p < sys.vehicleObjs.length := (List.getElem?_eq_some_iff.mp hvo).1
  obtain ⟨_, _, _, _, _, w, hw, hwid⟩ := TransportSystem.findVehicle_some _ _ _ _ hv
  rw [hvo] at hw
  cases hw
  refine ⟨p, vo, { vo with seatStatus := vo.seatStatus.set i true }, i, hvo, ?_, hwid, hi,
    TransportSystem.findVehicle_first _ _ _ _ hv, hfree, Mathlib.Vector.get_set_same _ _ _,
    fun j hj => Mathlib.Vector.get_set_of_ne (Ne.symm hj) _, rfl, rfl, rfl, rfl, rfl, rfl,
    ?_, ?_, ?_, ?_, ?_⟩
  · rw [hst]
    exact List.getElem?_set_self hlt
  · intro q hq
    rw [hst]
    exact List.getElem?_set_ne (Ne.symm hq)
  all_goals rw [hst]

/-- Witness of C18: the first booking of `main`. -/
theorem bookSeat_frame_witness :
    ∃ p vo vo1 i, (mainSystem true true).vehicleObjs[p]? = some vo ∧
      afterFirstBooking.vehicleObjs[p]? = some vo1 ∧
      vo.vehicleId = "VH001" ∧ seatSlot 6 = some i ∧
      (∃ pre post, (mainSystem true true).vehiclePtrs = pre ++ p :: post ∧
        ∀ q ∈ pre, ∀ w, (mainSystem true true).vehicleObjs[q]? = some w →
          w.vehicleId ≠ "VH001") ∧
      vo.seatStatus.get i = false ∧ vo1.seatStatus.get i = true ∧
      (∀ j, j ≠ i → vo1.seatStatus.get j = vo.seatStatus.get j) ∧
      vo1.facultySeatOnly = vo.facultySeatOnly ∧ vo1.vehicleId = vo.vehicleId ∧
      vo1.isAC = vo.isAC ∧ vo1.totalCapacity = vo.totalCapacity ∧
      vo1.driverAssigned = vo.driverAssigned ∧ vo1.assignedRoute = vo.assignedRoute ∧
      (∀ q : Nat, q ≠ p → afterFirstBooking.vehicleObjs[q]? =
        (mainSystem true true).vehicleObjs[q]?) ∧
      afterFirstBooking.userObjs = (mainSystem true true).userObjs ∧
      afterFirstBooking.users = (mainSystem true true).users ∧
      afterFirstBooking.transporterObjs = (mainSystem true true).transporterObjs ∧
      afterFirstBooking.transporters = (mainSystem true true).transporters :=
  bookSeat_frame (mainSystem true true) afterFirstBooking "STU301" "VH001" 6 true (by rfl)

/-! ## Lemmas on booking codes and on counting booked seats -/

theorem digitChar_value (k : Nat) (hk : k < 10) : (Nat.digitChar k).toNat - 48 = k := by
  interval_cases k <;> rfl

theorem readDecimal_toDigitsCore (fuel : Nat) : ∀ (n : Nat) (ds : List Char), n < fuel →
    readDecimal (Nat.toDigitsCore 10 fuel n ds) 0 = readDecimal ds n := by
  induction fuel with
  | zero =>
    intro n ds h
    omega
  | succ fuel ih =>
    intro n ds h
    unfold Nat.toDigitsCore
    simp only
    by_cases hn : n / 10 = 0
    · rw [if_pos hn]
      have hlt : n < 10 := by omega
      simp [readDecimal, Nat.mod_eq_of_lt hlt, digitChar_value n hlt]
    · rw [if_neg hn, ih (n / 10) _ (by omega)]
      simp only [readDecimal, List.foldl_cons, digitChar_value _ (Nat.mod_lt n (by decide))]
      congr 1
      omega

/-- The code "BK" followed by the decimal digits of `n` carries the sequence
number `n`. -/
theorem Booking.sequenceNumber_code (b : Booking) (n : Nat)
    (h : b.bookingCode = "BK" ++ toString n) : b.sequenceNumber = n := by
  have hd : ("BK" ++ toString n).data = 'B' :: 'K' :: Nat.toDigits 10 n := by
    simp [String.data_append, toString, Nat.repr, List.asString]
  unfold Booking.sequenceNumber
  rw [h, hd]
  simp only [List.drop_succ_cons, List.drop_zero, Nat.toDigits]
  rw [readDecimal_toDigitsCore _ _ _ (Nat.lt_succ_self n)]
  rfl

theorem count_set_true : ∀ (l : List Bool) (i : Nat), l[i]? = some false →
    (l.set i true).count true = l.count true + 1 := by
  intro l
  induction l with
  | nil =>
    intro i h
    simp at h
  | cons a l ih =>
    intro i h
    cases i with
    | zero =>
      simp only [List.getElem?_cons_zero, Option.some.injEq] at h
      subst h
      simp
    | succ i =>
      simp only [List.getElem?_cons_succ] at h
      simp only [List.set_cons_succ, List.count_cons, ih i h]
      omega

theorem sum_map_set (f : Vehicle → Nat) : ∀ (l : List Vehicle) (p : Nat) (a old : Vehicle),
    l[p]? = some old → ((l.set p a).map f).sum + f old = (l.map f).sum + f a := by
  intro l
  induction l with
  | nil =>
    intro p a old h
    simp at h
  | cons x l ih =>
    intro p a old h
    cases p with
    | zero =>
      simp only [List.getElem?_cons_zero, Option.some.injEq] at h
      subst h
      simp only [List.set_cons_zero, List.map_cons, List.sum_cons]
      omega
    | succ p =>
      simp only [List.getElem?_cons_succ] at h
      have := ih p a old h
      simp only [List.set_cons_succ, List.map_cons, List.sum_cons]
      omega

theorem Vehicle.bookedSeats_set (vo : Vehicle) (i : Fin 52) (h : vo.seatStatus.get i = false) :
    Vehicle.bookedSeats { vo with seatStatus := vo.seatStatus.set i true } =
      vo.bookedSeats + 1 := by
  unfold Vehicle.bookedSeats
  simp only [Mathlib.Vector.toList_set]
  apply count_set_true
  rw [Mathlib.Vector.get_eq_get] at h
  rw [List.getElem?_eq_some_iff]
  exact ⟨by simp, by simpa using h⟩

theorem Vehicle.bookedSeats_free (v : Vehicle) (h : ∀ i, v.seatStatus.get i = false) :
    v.bookedSeats = 0 := by
  unfold Vehicle.bookedSeats
  rw [List.count_eq_zero]
  intro hmem
  obtain ⟨i, hi⟩ := (Mathlib.Vector.mem_iff_get true v.seatStatus).mp hmem
  rw [h i] at hi
  cases hi

/-! ## Lemmas on sequences of calls -/

/-- A property that every normally returning call preserves holds after every
sequence of calls without undefined behaviour. -/
theorem runCalls_invariant (P : TransportSystem → Prop)
    (hstep : ∀ sys sys1 userId vehicleId seat b, P sys →
      sys.bookSeat userId vehicleId seat = (sys1, .ok b) → P sys1)
    (cs : List Call) : ∀ sys0 sys, P sys0 → runCalls sys0 cs = some sys → P sys := by
  induction cs with
  | nil =>
    intro sys0 sys h0 h
    simp only [runCalls, Option.some.injEq] at h
    subst h
    exact h0
  | cons c cs ih =>
    intro sys0 sys h0 h
    unfold runCalls at h
    cases hr : (sys0.bookSeat c.userId c.vehicleId c.seat).2 with
    | undefined => simp [hr] at h
    | threw e =>
      simp only [hr] at h
      rw [(TransportSystem.bookSeat_threw sys0 _ _ _ e hr).1] at h
      exact ih sys0 sys h0 h
    | ok b =>
      simp only [hr] at h
      exact ih _ sys (hstep sys0 _ c.userId c.vehicleId c.seat b h0 (Prod.ext rfl hr)) h

/-- Along a sequence of calls the riders, the registry, the providers and the
number of vehicles stay as they are; of a vehicle only booked flags change,
and only from clear to set. -/
theorem runCalls_setup (cs : List Call) (sys0 sys : TransportSystem)
    (h : runCalls sys0 cs = some sys) :
    sys.userObjs = sys0.userObjs ∧ sys.users = sys0.users ∧
    sys.transporterObjs = sys0.transporterObjs ∧ sys.transporters = sys0.transporters ∧
    sys.vehicleObjs.length = sys0.vehicleObjs.length ∧
    ∀ (q : Nat) (vo : Vehicle), sys0.vehicleObjs[q]? = some vo →
      ∃ vo1, sys.vehicleObjs[q]? = some vo1 ∧ vo1.vehicleId = vo.vehicleId ∧
        vo1.isAC = vo.isAC ∧ vo1.totalCapacity = vo.totalCapacity ∧
        vo1.facultySeatOnly = vo.facultySeatOnly ∧
        ∀ i, vo.seatStatus.get i = true → vo1.seatStatus.get i = true := by
  refine runCalls_invariant
    (fun s => s.userObjs = sys0.userObjs ∧ s.users = sys0.users ∧
      s.transporterObjs = sys0.transporterObjs ∧ s.transporters = sys0.transporters ∧
      s.vehicleObjs.length = sys0.vehicleObjs.length ∧
      ∀ (q : Nat) (vo : Vehicle), sys0.vehicleObjs[q]? = some vo →
        ∃ vo1, s.vehicleObjs[q]? = some vo1 ∧ vo1.vehicleId = vo.vehicleId ∧
          vo1.isAC = vo.isAC ∧ vo1.totalCapacity = vo.totalCapacity ∧
          vo1.facultySeatOnly = vo.facultySeatOnly ∧
          ∀ i, vo.seatStatus.get i = true → vo1.seatStatus.get i = true)
    ?_ cs sys0 sys
    ⟨rfl, rfl, rfl, rfl, rfl, fun q vo hq => ⟨vo, hq, rfl, rfl, rfl, rfl, fun i hi => hi⟩⟩ h
  intro s s1 userId vehicleId seat b hP hs
  obtain ⟨u, uo, p, vo, i, _, _, _, _, hvo, _, _, _, _, _, hst⟩ :=
    TransportSystem.bookSeat_ok_step s s1 userId vehicleId seat b hs
  obtain ⟨h1, h2, h3, h4, h5, h6⟩ := hP
  have hlt : p < s.vehicleObjs.length := (List.getElem?_eq_some_iff.mp hvo).1
  subst hst
  refine ⟨h1, h2, h3, h4, by simpa using h5, ?_⟩
  intro q w hq
  obtain ⟨w1, hw1, e1, e2, e3, e4, e5⟩ := h6 q w hq
  by_cases hqp : q = p
  · subst hqp
    rw [hvo] at hw1
    cases hw1
    refine ⟨{ vo with seatStatus := vo.seatStatus.set i true },
      List.getElem?_set_self hlt, e1, e2, e3, e4, ?_⟩
    intro j hj
    simp only [Mathlib.Vector.get_set_eq_if]
    split_ifs
    · rfl
    · exact e5 j hj
  · refine ⟨w1, ?_, e1, e2, e3, e4, e5⟩
    simp only [List.getElem?_set_ne (Ne.symm hqp)]
    exact hw1

/-- Both lookups give the same answers after a sequence of calls as before. -/
theorem runCalls_lookups (cs : List Call) (sys0 sys : TransportSystem)
    (h : runCalls sys0 cs = some sys) (id : String) :
    sys.getUserById id = sys0.getUserById id ∧
    TransportSystem.findVehicle sys id sys.transporters =
      TransportSystem.findVehicle sys0 id sys0.transporters := by
  obtain ⟨h1, h2, h3, h4, h5, h6⟩ := runCalls_setup cs sys0 sys h
  refine ⟨by simp [TransportSystem.getUserById, h1, h2], ?_⟩
  rw [h4]
  apply TransportSystem.findVehicle_congr sys0 sys id h3
  intro q
  cases hq : sys0.vehicleObjs[q]? with
  | none =>
    have : sys.vehicleObjs[q]? = none := by
      rw [List.getElem?_eq_none_iff] at hq ⊢
      omega
    rw [this]
  | some vo =>
    obtain ⟨vo1, hvo1, e1, _⟩ := h6 q vo hq
    simp [hvo1, Vehicle.getId, e1]

/-- Started with an empty ledger, a sequence of calls leaves a ledger in which
every booking is backed by a set flag of a seat of matching restriction, no two
bookings name the same seat of the same vehicle, and the booking at position
`k` has the code "BK" followed by `k + 1`. -/
theorem runCalls_ledger (cs : List Call) (sys0 sys : TransportSystem)
    (h0 : sys0.bookings = []) (h : runCalls sys0 cs = some sys) :
    (∀ b ∈ sys.bookings, ∃ uo vo i, sys.userObjs[b.passenger]? = some uo ∧
      sys.vehicleObjs[b.rideVehicle]? = some vo ∧ seatSlot b.bookedSeat = some i ∧
      b.bookedSeat < vo.totalCapacity ∧ vo.seatStatus.get i = true ∧
      vo.facultySeatOnly.get i = uo.isFacultyMember) ∧
    sys.bookings.Pairwise
      (fun a b => ¬(a.rideVehicle = b.rideVehicle ∧ a.bookedSeat = b.bookedSeat)) ∧
    (∀ (k : Nat) (b : Booking), sys.bookings[k]? = some b →
      b.bookingCode = "BK" ++ toString (k + 1)) := by
  refine runCalls_invariant
    (fun s => (∀ b ∈ s.bookings, ∃ uo vo i, s.userObjs[b.passenger]? = some uo ∧
        s.vehicleObjs[b.rideVehicle]? = some vo ∧ seatSlot b.bookedSeat = some i ∧
        b.bookedSeat < vo.totalCapacity ∧ vo.seatStatus.get i = true ∧
        vo.facultySeatOnly.get i = uo.isFacultyMember) ∧
      s.bookings.Pairwise
        (fun a b => ¬(a.rideVehicle = b.rideVehicle ∧ a.bookedSeat = b.bookedSeat)) ∧
      (∀ (k : Nat) (b : Booking), s.bookings[k]? = some b →
        b.bookingCode = "BK" ++ toString (k + 1)))
    ?_ cs sys0 sys ?_ h
  · intro s s1 userId vehicleId seat b hP hs
    obtain ⟨u, uo, p, vo, i, _, huo, _, _, hvo, hi, hcap, hfree, hfac, _, hst⟩ :=
      TransportSystem.bookSeat_ok_step s s1 userId vehicleId seat b hs
    obtain ⟨hback, hpair, hcode⟩ := hP
    have hlt : p < s.vehicleObjs.length := (List.getElem?_eq_some_iff.mp hvo).1
    subst hst
    refine ⟨?_, ?_, ?_⟩
    · intro bk hbk
      rcases List.mem_append.mp hbk with hold | hnew
      · obtain ⟨uo1, vo1, i1, e1, e2, e3, e4, e5, e6⟩ := hback bk hold
        by_cases hp : bk.rideVehicle = p
        · rw [hp, hvo] at e2
          cases e2
          refine ⟨uo1, { vo with seatStatus := vo.seatStatus.set i true }, i1, e1, ?_, e3, e4,
            ?_, e6⟩
          · rw [hp]
            exact List.getElem?_set_self hlt
          · simp only [Mathlib.Vector.get_set_eq_if]
            split_ifs
            · rfl
            · exact e5
        · refine ⟨uo1, vo1, i1, e1, ?_, e3, e4, e5, e6⟩
          simp only [List.getElem?_set_ne (Ne.symm hp)]
          exact e2
      · simp only [List.mem_singleton] at hnew
        subst hnew
        exact ⟨uo, { vo with seatStatus := vo.seatStatus.set i true }, i, huo,
          List.getElem?_set_self hlt, hi, hcap, Mathlib.Vector.get_set_same _ _ _, hfac⟩
    · rw [List.pairwise_append]
      refine ⟨hpair, List.pairwise_singleton _ _, ?_⟩
      intro a ha nb hnb
      simp only [List.mem_singleton] at hnb
      subst hnb
      rintro ⟨hv, hseat⟩
      obtain ⟨uo1, vo1, i1, _, e2, e3, _, e5, _⟩ := hback a ha
      simp only at hv hseat
      rw [hv, hvo] at e2
      cases e2
      rw [hseat, hi] at e3
      cases e3
      rw [hfree] at e5
      cases e5
    · intro k bk hk
      by_cases hklt : k < s.bookings.length
      · rw [List.getElem?_append_left hklt] at hk
        exact hcode k bk hk
      · have hge : s.bookings.length ≤ k := Nat.le_of_not_lt hklt
        rw [List.getElem?_append_right hge] at hk
        cases hsub : k - s.bookings.length with
        | zero =>
          rw [hsub] at hk
          simp only [List.getElem?_cons_zero, Option.some.injEq] at hk
          subst hk
          have : k = s.bookings.length := by omega
          rw [this]
        | succ m =>
          rw [hsub] at hk
          simp at hk
  · simp only [h0]
    exact ⟨by simp, List.Pairwise.nil, by simp⟩

/-- Started with an empty ledger and no seat booked, a sequence of calls leaves
as many bookings as booked seats. -/
theorem runCalls_count (cs : List Call) (sys0 sys : TransportSystem)
    (hfree : ∀ v ∈ sys0.vehicleObjs, ∀ i, v.seatStatus.get i = false)
    (h0 : sys0.bookings = []) (h : runCalls sys0 cs = some sys) :
    sys.bookings.length = sys.totalBooked := by
  refine runCalls_invariant (fun s => s.bookings.length = s.totalBooked) ?_ cs sys0 sys ?_ h
  · intro s s1 userId vehicleId seat b hP hs
    obtain ⟨u, uo, p, vo, i, _, _, _, _, hvo, _, _, hfr, _, _, hst⟩ :=
      TransportSystem.bookSeat_ok_step s s1 userId vehicleId seat b hs
    subst hst
    have hsum := sum_map_set Vehicle.bookedSeats s.vehicleObjs p
      { vo with seatStatus := vo.seatStatus.set i true } vo hvo
    rw [Vehicle.bookedSeats_set vo i hfr] at hsum
    simp only [TransportSystem.totalBooked, List.length_append, List.length_singleton] at hP ⊢
    omega
  · simp only [h0, List.length_nil, TransportSystem.totalBooked]
    symm
    rw [List.sum_eq_zero_iff]
    intro n hn
    obtain ⟨v, hv, rfl⟩ := List.mem_map.mp hn
    exact Vehicle.bookedSeats_free v (hfree v hv)

/-- The bookings a sequence of calls adds to the ledger are, in order, those
of its normally returning calls. -/
theorem runCalls_order (cs : List Call) : ∀ (sys0 sys : TransportSystem),
    runCalls sys0 cs = some sys →
    ∃ news, sys.bookings = sys0.bookings ++ news ∧
      List.Forall₂ (fun (b : Booking) (c : Call) => b.bookedSeat = c.seat ∧
          sys.getUserById c.userId = .ok b.passenger ∧
          TransportSystem.findVehicle sys c.vehicleId sys.transporters =
            .ok (some b.rideVehicle))
        news (succeeded sys0 cs) := by
  induction cs with
  | nil =>
    intro sys0 sys h
    simp only [runCalls, Option.some.injEq] at h
    subst h
    exact ⟨[], by simp, by simp [succeeded]⟩
  | cons c cs ih =>
    intro sys0 sys h
    have hall := runCalls_lookups (c :: cs) sys0 sys h
    unfold runCalls at h
    unfold succeeded
    cases hr : (sys0.bookSeat c.userId c.vehicleId c.seat).2 with
    | undefined => simp [hr] at h
    | threw e =>
      simp only [hr] at h ⊢
      have hsame := (TransportSystem.bookSeat_threw sys0 _ _ _ e hr).1
      rw [hsame] at h ⊢
      exact ih sys0 sys h
    | ok b =>
      simp only [hr] at h ⊢
      obtain ⟨news, hnews, hforall⟩ := ih _ sys h
      obtain ⟨u, uo, p, vo, i, hu, _, _, hv, _, _, _, _, _, _, hst⟩ :=
        TransportSystem.bookSeat_ok_step sys0 _ c.userId c.vehicleId c.seat b
          (Prod.ext rfl hr)
      have hbk := congrArg TransportSystem.bookings hst
      simp only at hbk
      rw [hbk, List.append_assoc, List.singleton_append] at hnews
      refine ⟨_, hnews, List.Forall₂.cons ⟨rfl, ?_, ?_⟩ hforall⟩
      · rw [(hall c.userId).1, hu]
      · rw [(hall c.vehicleId).2, hv]

/-! ## When a call and a sequence of calls have defined behaviour -/

theorem Vehicle.bookSeat_subscripts_in_range (v : Vehicle) (s : Int) (u : User)
    (hc : v.totalCapacity ≤ 52) (hs : 0 ≤ s) : (v.bookSeat s u).2 ≠ .undefined := by
  unfold Vehicle.bookSeat
  by_cases hcap : v.totalCapacity ≤ s
  · simp [hcap]
  · obtain ⟨i, hi⟩ := seatSlot_of_range hs (by omega)
    simp only [if_neg hcap, hi]
    split_ifs <;> simp

/-- With valid pointers, capacities of at most 52, a seat index that is not
negative and fewer than 200 bookings in the ledger, `bookSeat` returns or
throws: no subscript is out of range and no pointer is invalid. -/
theorem TransportSystem.bookSeat_defined (sys : TransportSystem)
    (userId vehicleId : String) (seat : Int) (hu : sys.usersValid = true)
    (ht : sys.transportersValid = true)
    (hc : ∀ v ∈ sys.vehicleObjs, v.totalCapacity ≤ 52) (hs : 0 ≤ seat)
    (hl : sys.bookings.length < 200) :
    (sys.bookSeat userId vehicleId seat).2 ≠ .undefined := by
  cases h0 : sys.getUserById userId with
  | undefined =>
    exact absurd h0 (TransportSystem.scanUsers_valid _ _ _
      ((TransportSystem.usersValid_iff sys).mp hu))
  | threw e => simp [TransportSystem.bookSeat, h0]
  | ok u =>
    obtain ⟨_, uo, huo, _⟩ := TransportSystem.scanUsers_ok _ _ _ _ h0
    cases hp : uo.paymentDone with
    | false => simp [TransportSystem.bookSeat, h0, huo, User.getPaymentStatus, hp]
    | true =>
      cases h2 : TransportSystem.findVehicle sys vehicleId sys.transporters with
      | undefined =>
        exact absurd h2 (TransportSystem.findVehicle_valid _ _ _
          ((TransportSystem.transportersValid_iff sys).mp ht))
      | threw e => exact absurd h2 (TransportSystem.findVehicle_ne_threw _ _ _ _)
      | ok r =>
        cases r with
        | none =>
          simp [TransportSystem.bookSeat, h0, huo, User.getPaymentStatus, hp,
            TransportSystem.bookLoop_eq, h2]
        | some p =>
          rw [TransportSystem.bookSeat_of_lookup sys userId vehicleId seat u uo p h0 huo hp h2]
          obtain ⟨_, _, _, _, _, vo, hvo, _⟩ := TransportSystem.findVehicle_some _ _ _ _ h2
          have hcap : vo.totalCapacity ≤ 52 := hc vo (List.getElem?_mem hvo)
          unfold TransportSystem.bookFound
          simp only [hvo]
          cases h3 : (vo.bookSeat seat uo).2 with
          | undefined => exact absurd h3 (Vehicle.bookSeat_subscripts_in_range vo seat uo hcap hs)
          | threw e => simp
          | ok x =>
            simp only [TransportSystem.recordBooking, TransportSystem.bookingCount,
              TransportSystem.setVehicle]
            rw [if_pos hl]
            simp

/-- A normal return keeps the pointers valid and the capacities as they are,
and adds one booking. -/
theorem TransportSystem.bookSeat_ok_valid (sys sys1 : TransportSystem)
    (userId vehicleId : String) (seat : Int) (b : Bool)
    (h : sys.bookSeat userId vehicleId seat = (sys1, .ok b))
    (hu : sys.usersValid = true) (ht : sys.transportersValid = true)
    (hc : ∀ v ∈ sys.vehicleObjs, v.totalCapacity ≤ 52) :
    sys1.usersValid = true ∧ sys1.transportersValid = true ∧
    (∀ v ∈ sys1.vehicleObjs, v.totalCapacity ≤ 52) ∧
    sys1.bookings.length = sys.bookings.length + 1 := by
  obtain ⟨u, uo, p, vo, i, _, _, _, _, hvo, _, _, _, _, _, hst⟩ :=
    TransportSystem.bookSeat_ok_step sys sys1 userId vehicleId seat b h
  subst hst
  refine ⟨?_, ?_, ?_, by simp⟩
  · simpa [TransportSystem.usersValid] using hu
  · simpa [TransportSystem.transportersValid] using ht
  · intro v hv
    rcases List.mem_or_eq_of_mem_set hv with hold | hnew
    · exact hc v hold
    · rw [hnew]
      exact hc vo (List.getElem?_mem hvo)

/-- A sequence of calls has defined behaviour when the pointers are valid, no
vehicle has a capacity above 52, no seat index is negative, and the ledger has
room for as many bookings as there are calls. -/
theorem runCalls_defined (cs : List Call) : ∀ (sys0 : TransportSystem),
    sys0.usersValid = true → sys0.transportersValid = true →
    (∀ v ∈ sys0.vehicleObjs, v.totalCapacity ≤ 52) → (∀ c ∈ cs, 0 ≤ c.seat) →
    sys0.bookings.length + cs.length ≤ 200 → ∃ sys, runCalls sys0 cs = some sys := by
  induction cs with
  | nil =>
    intro sys0 _ _ _ _ _
    exact ⟨sys0, rfl⟩
  | cons c cs ih =>
    intro sys0 hu ht hc hs hl
    have hlen : sys0.bookings.length < 200 := by
      simp only [List.length_cons] at hl
      omega
    have hdef := TransportSystem.bookSeat_defined sys0 c.userId c.vehicleId c.seat hu ht hc
      (hs c (List.mem_cons_self _ _)) hlen
    have hs1 : ∀ d ∈ cs, 0 ≤ d.seat := fun d hd => hs d (List.mem_cons_of_mem _ hd)
    unfold runCalls
    cases hr : (sys0.bookSeat c.userId c.vehicleId c.seat).2 with
    | undefined => exact absurd hr hdef
    | threw e =>
      simp only
      rw [(TransportSystem.bookSeat_threw sys0 _ _ _ e hr).1]
      apply ih sys0 hu ht hc hs1
      simp only [List.length_cons] at hl
      omega
    | ok b =>
      simp only
      obtain ⟨hu1, ht1, hc1, hl1⟩ := TransportSystem.bookSeat_ok_valid sys0 _ c.userId
        c.vehicleId c.seat b (Prod.ext rfl hr) hu ht hc
      apply ih _ hu1 ht1 hc1 hs1
      simp only [List.length_cons] at hl
      omega

/-! ## Sequences of calls with defined behaviour -/

/-- After a sequence of `TransportSystem::bookSeat` calls with defined
behaviour, started with an empty ledger, the ledger lists, in order, one booking for each call that
returned normally, with the rider, the vehicle and the seat of that call; the
booking at position `k` (counted from 1) has the code "BK" followed by `k` and
so carries the sequence number `k`, whatever calls failed in between; sequence
numbers increase strictly along the ledger and no two codes are equal. -/
theorem ledger_order_and_codes (sys0 sys : TransportSystem) (cs : List Call)
    (h0 : sys0.bookings = []) (h : runCalls sys0 cs = some sys) :
    List.Forall₂ (fun (b : Booking) (c : Call) => b.bookedSeat = c.seat ∧
        sys.getUserById c.userId = .ok b.passenger ∧
        TransportSystem.findVehicle sys c.vehicleId sys.transporters =
          .ok (some b.rideVehicle))
      sys.bookings (succeeded sys0 cs) ∧
    (∀ (k : Nat) (b : Booking), sys.bookings[k]? = some b →
      b.bookingCode = "BK" ++ toString (k + 1) ∧ b.sequenceNumber = k + 1) ∧
    (∀ (j k : Nat) (a b : Booking), j < k → sys.bookings[j]? = some a →
      sys.bookings[k]? = some b →
      a.sequenceNumber < b.sequenceNumber ∧ a.bookingCode ≠ b.bookingCode) := by
  obtain ⟨news, hnews, hforall⟩ := runCalls_order cs sys0 sys h
  rw [h0, List.nil_append] at hnews
  have hcode := (runCalls_ledger cs sys0 sys h0 h).2.2
  have hseq : ∀ (k : Nat) (b : Booking), sys.bookings[k]? = some b →
      b.sequenceNumber = k + 1 :=
    fun k b hk => Booking.sequenceNumber_code b (k + 1) (hcode k b hk)
  refine ⟨by rw [hnews]; exact hforall, fun k b hk => ⟨hcode k b hk, hseq k b hk⟩, ?_⟩
  intro j k a b hjk ha hb
  have hlt : a.sequenceNumber < b.sequenceNumber := by
    rw [hseq j a ha, hseq k b hb]
    omega
  refine ⟨hlt, fun heq => ?_⟩
  have : a.sequenceNumber = b.sequenceNumber := by
    unfold Booking.sequenceNumber
    rw [heq]
  omega

/-- Instance of `ledger_order_and_codes`: the calls of `main` with a failing
call in between. -/
theorem ledger_order_and_codes_witness :
    runCalls (mainSystem true true) mainCalls = some afterSecondBooking ∧
    succeeded (mainSystem true true) mainCalls =
      [⟨"STU301", "VH001", 6⟩, ⟨"FAC404", "VH001", 1⟩] ∧
    (∀ (k : Nat) (b : Booking), afterSecondBooking.bookings[k]? = some b →
      b.bookingCode = "BK" ++ toString (k + 1) ∧ b.sequenceNumber = k + 1) :=
  ⟨by rfl, by rfl,
    (ledger_order_and_codes (mainSystem true true) afterSecondBooking mainCalls
      (by rfl) (by rfl)).2.1⟩

/-- After a sequence of `TransportSystem::bookSeat` calls with defined
behaviour, started with an empty ledger, no two bookings of the ledger name the same seat of the same
vehicle; and whatever calls follow, a booked flag that is set stays set. -/
theorem seat_booked_once (sys0 sysA sysB : TransportSystem) (cs1 cs2 : List Call)
    (h0 : sys0.bookings = []) (h1 : runCalls sys0 cs1 = some sysA)
    (h2 : runCalls sysA cs2 = some sysB) :
    sysA.bookings.Pairwise
      (fun a b => ¬(a.rideVehicle = b.rideVehicle ∧ a.bookedSeat = b.bookedSeat)) ∧
    (∀ (q : Nat) (vo : Vehicle) (i : Fin 52), sysA.vehicleObjs[q]? = some vo →
      vo.seatStatus.get i = true →
      ∃ vo1, sysB.vehicleObjs[q]? = some vo1 ∧ vo1.seatStatus.get i = true) := by
  refine ⟨(runCalls_ledger cs1 sys0 sysA h0 h1).2.1, fun q vo i hq hi => ?_⟩
  obtain ⟨vo1, hvo1, _, _, _, _, hmono⟩ := (runCalls_setup cs2 sysA sysB h2).2.2.2.2.2 q vo hq
  exact ⟨vo1, hvo1, hmono i hi⟩

/-- Instance of `seat_booked_once`: the first call of `main`, then the two
others. -/
theorem seat_booked_once_witness :
    afterFirstBooking.bookings.Pairwise
      (fun a b => ¬(a.rideVehicle = b.rideVehicle ∧ a.bookedSeat = b.bookedSeat)) ∧
    (∀ (q : Nat) (vo : Vehicle) (i : Fin 52), afterFirstBooking.vehicleObjs[q]? = some vo →
      vo.seatStatus.get i = true →
      ∃ vo1, afterSecondBooking.vehicleObjs[q]? = some vo1 ∧ vo1.seatStatus.get i = true) :=
  seat_booked_once (mainSystem true true) afterFirstBooking afterSecondBooking
    [⟨"STU301", "VH001", 6⟩] [⟨"FAC404", "VH001", 6⟩, ⟨"FAC404", "VH001", 1⟩]
    (by rfl) (by rfl) (by rfl)

/-- After a sequence of `TransportSystem::bookSeat` calls with defined
behaviour, started with every seat free and an empty ledger, the ledger has as many bookings as there
are booked seats over all vehicles, and every booking names a rider and a
vehicle such that the seat index is inside the capacity of the vehicle, the
seat is booked, and the seat is faculty-only exactly when the rider is a
faculty member. -/
theorem ledger_matches_seat_map (sys0 sys : TransportSystem) (cs : List Call)
    (hfree : ∀ v ∈ sys0.vehicleObjs, ∀ i, v.seatStatus.get i = false)
    (h0 : sys0.bookings = []) (h : runCalls sys0 cs = some sys) :
    sys.bookings.length = sys.totalBooked ∧
    ∀ b ∈ sys.bookings, ∃ uo vo, sys.userObjs[b.passenger]? = some uo ∧
      sys.vehicleObjs[b.rideVehicle]? = some vo ∧ 0 ≤ b.bookedSeat ∧
      b.bookedSeat < vo.totalCapacity ∧ vo.isSeatBooked b.bookedSeat = .ok true ∧
      vo.isSeatForFaculty b.bookedSeat = .ok uo.isFacultyMember := by
  refine ⟨runCalls_count cs sys0 sys hfree h0 h, fun b hb => ?_⟩
  obtain ⟨uo, vo, i, e1, e2, e3, e4, e5, e6⟩ := (runCalls_ledger cs sys0 sys h0 h).1 b hb
  refine ⟨uo, vo, e1, e2, (seatSlot_eq_some e3).1, e4, ?_, ?_⟩
  · simp [Vehicle.isSeatBooked, e3, e5]
  · simp [Vehicle.isSeatForFaculty, e3, e6]

/-- Instance of `ledger_matches_seat_map`: the calls of `main` with a failing
call in between. -/
theorem ledger_matches_seat_map_witness :
    afterSecondBooking.bookings.length = afterSecondBooking.totalBooked ∧
    ∀ b ∈ afterSecondBooking.bookings, ∃ uo vo,
      afterSecondBooking.userObjs[b.passenger]? = some uo ∧
      afterSecondBooking.vehicleObjs[b.rideVehicle]? = some vo ∧ 0 ≤ b.bookedSeat ∧
      b.bookedSeat < vo.totalCapacity ∧ vo.isSeatBooked b.bookedSeat = .ok true ∧
      vo.isSeatForFaculty b.bookedSeat = .ok uo.isFacultyMember :=
  ledger_matches_seat_map (mainSystem true true) afterSecondBooking mainCalls
    (by decide) (by rfl) (by rfl)

/-! ## Claims on sequences of calls -/

/-- C17, evaluated on the state built by `main` and the single request of the
paid student for seat -1 of "VH001": no exception is thrown, and the call
subscripts `seatStatus` with -1, outside the array, before anything is
written. -/
theorem ledger_seat_map_negative_index :
    (mainSystem true true).bookSeat "STU301" "VH001" (-1) =
      (mainSystem true true, .undefined) ∧
    runCalls (mainSystem true true) [⟨"STU301", "VH001", -1⟩] = none := by
  refine ⟨?_, ?_⟩ <;> rfl

end Transport
